import Mathlib

/-!
# Verification of the cvssify CVSS v3.0/3.1 scoring library

A shallow embedding of the library's source (`src/parser.ts`, `src/validator.ts`,
`src/models.ts`, `src/score-calculator.ts`) into Lean 4, together with theorems
settling the specification's claims.

Conventions of the embedding:
* TypeScript `number` is modelled as `ℚ` (all constants in the source are exact
  decimal literals, and the score pipeline's `roundUp` works through an integer
  domain precisely so that results are decimal-exact).
* Thrown `Error`s are modelled as an `Except VError` result; each constructor of
  `VError` corresponds to one `throw` site of the source and is named after the
  specification's error taxonomy.  The payloads carry the data interpolated into
  the source's message strings.
* A JavaScript `Map<string, string>` is modelled as an insertion-ordered
  association list; `Map.set` on an existing key updates in place, otherwise it
  appends.
* `String.split` (single-character separators only, as used by the source) and
  the `VERSION_REGEX` match are implemented character-by-character on `List Char`.
-/

namespace Cvssify

/-! ## JavaScript string primitives -/

/-- JS line terminators (`\n`, `\r`, U+2028, U+2029): the characters that `.`
in `VERSION_REGEX` refuses to match. -/
def isLineTerminator (c : Char) : Bool :=
  c = '\n' || c = '\r' || c = ' ' || c = ' '

/-- The common JS whitespace characters removed by `String.prototype.trim`
(space, tab, vertical tab, form feed, NBSP, BOM, and the line terminators). -/
def isJsWhitespace (c : Char) : Bool :=
  c = ' ' || c = '\t' || c = '\x0b' || c = '\x0c' || c = ' ' ||
  c = '﻿' || isLineTerminator c

/-- `String.prototype.trim` on the character list. -/
def jsTrimList (l : List Char) : List Char :=
  ((l.dropWhile isJsWhitespace).reverse.dropWhile isJsWhitespace).reverse

/-- `String.prototype.trim`. -/
def jsTrim (s : String) : String := ⟨jsTrimList s.data⟩

/-- `String.prototype.split` with a single-character separator (the source only
splits on `"/"` and `":"`).  `"".split(c) = [""]`, `"a//b".split("/") = ["a","","b"]`. -/
def splitOnChar (c : Char) : List Char → List (List Char)
  | [] => [[]]
  | x :: xs =>
    if x = c then [] :: splitOnChar c xs
    else
      match splitOnChar c xs with
      | [] => [[x]]
      | h :: t => (x :: h) :: t

/-- `String.prototype.includes` for a substring pattern (used for the `"//"` check). -/
def listContainsSub (pat : List Char) : List Char → Bool
  | [] => pat.isPrefixOf ([] : List Char)
  | x :: xs => pat.isPrefixOf (x :: xs) || listContainsSub pat xs

/-- `vectorStr.includes pat`. -/
def strContainsSub (s pat : String) : Bool := listContainsSub pat.data s.data

/-- `String.prototype.startsWith`, character by character. -/
def strStartsWith (s pre : String) : Bool := pre.data.isPrefixOf s.data

/-! ## Errors

One constructor per `throw` site, named after the spec's error taxonomy (§7).
The payload is the data interpolated into the source's message string. -/

/-- The error taxonomy of the library (spec §7); each constructor models one
`throw new Error(...)` site of the source. -/
inductive VError where
  /-- `'CVSS vector must start with "CVSS:"'` -/
  | missingPrefix : VError
  /-- `validateVersion`: version token absent (`none`) or not `"3.0"`/`"3.1"`. -/
  | unsupportedVersion : Option String → VError
  /-- `"Invalid CVSS string. Example: ..."` raised for an empty vector body or a
  body containing `"//"`. -/
  | malformedVector : VError
  /-- `parseMetrics`: `` `Invalid metric: "${metric}"` `` (payload: the segment). -/
  | invalidMetricSegment : String → VError
  /-- `parseMetricsAsMap`: `` `Duplicated metric: "${key}:${value}"` ``. -/
  | duplicateMetric : String → String → VError
  /-- `checkMandatoryMetrics`: missing mandatory base metric. -/
  | missingMandatoryMetric : String → VError
  /-- `checkUnknownMetrics`: `` `Unknown CVSS metric "${userMetric}"...` ``. -/
  | unknownMetric : String → VError
  /-- `checkMetricsValues`: `` `Invalid value for CVSS metric ${metric}...` ``. -/
  | invalidMetricValue : String → String → VError
  /-- `getMetricValue`: `` `Missing metric: ${metric}` ``. -/
  | missingMetric : String → VError
  /-- `populateEnvironmentalMetricDefaults`: `` `Missing modified metric for ${metric}` ``. -/
  | missingModifiedMetric : String → VError
  /-- `getMetricNumericValue`: `` `Internal error. Missing metric score: ${metric}` ``. -/
  | internalScoreTableError : String → VError
  /-- `getMetricNumericValue`: `` `Unknown metric value: ${value}` ``. -/
  | unknownMetricValue : String → VError
  /-- `getPrivilegesRequiredNumericValue`: `` `Unknown Scope value: ${scopeValue}` ``. -/
  | unknownScopeValue : String → VError
  /-- `getPrivilegesRequiredNumericValue`: `` `Unknown PrivilegesRequired value: ${value}` ``. -/
  | unknownPrivilegesRequiredValue : String → VError
  /-- `calculateEnvironmentalResult`: `"Version not found"`. -/
  | versionNotFound : VError
  deriving DecidableEq, Repr

instance {ε α : Type} [DecidableEq ε] [DecidableEq α] : DecidableEq (Except ε α) := fun
  | .error a, .error b =>
    if h : a = b then .isTrue (by rw [h]) else .isFalse (by simp [h])
  | .error _, .ok _ => .isFalse (by simp)
  | .ok _, .error _ => .isFalse (by simp)
  | .ok a, .ok b =>
    if h : a = b then .isTrue (by rw [h]) else .isFalse (by simp [h])

/-! ## The metrics map (`Map<Metric, MetricValue>`) -/

/-- A JS `Map<string,string>`: an insertion-ordered association list. -/
abbrev MetricsMap := List (String × String)

/-- `Map.prototype.get` (`none` for `undefined`): the value at the first
(unique) entry with the given key. -/
def mapGet? : MetricsMap → String → Option String
  | [], _ => none
  | p :: t, k => if p.1 = k then some p.2 else mapGet? t k

/-- `Map.prototype.has`. -/
def mapHas (m : MetricsMap) (k : String) : Bool :=
  (mapGet? m k).isSome

/-- `Map.prototype.set`: update in place if the key exists (keeping its
insertion position), otherwise append. -/
def mapSet (m : MetricsMap) (k v : String) : MetricsMap :=
  if mapHas m k then m.map (fun p => if p.1 = k then (k, v) else p)
  else m ++ [(k, v)]

/-! ## Metric model (`src/models.ts`) -/

/-- `baseMetrics` (`models.ts`): the 8 base metric codes, in declaration order. -/
def baseMetrics : List String := ["AV", "AC", "PR", "UI", "S", "C", "I", "A"]

/-- `temporalMetrics` (`models.ts`). -/
def temporalMetrics : List String := ["E", "RL", "RC"]

/-- `environmentalMetrics` (`models.ts`), in declaration order
(`AR` first, then `CR`, `IR`, then the Modified metrics). -/
def environmentalMetrics : List String :=
  ["AR", "CR", "IR", "MAV", "MAC", "MPR", "MUI", "MS", "MC", "MI", "MA"]

/-- `[...baseMetrics, ...temporalMetrics, ...environmentalMetrics]` as built in
`validate`. -/
def allKnownMetrics : List String := baseMetrics ++ temporalMetrics ++ environmentalMetrics

/-- The merged legal-value tables `{...baseMetricValues, ...temporalMetricValues,
...environmentalMetricValues}` from `models.ts`, expressed as a lookup function
(the three key sets are disjoint, so the spread is a plain union).  A code
outside the 22 known metrics has no entry (`[]`). -/
def allKnownMetricsValues (m : String) : List String :=
  match m with
  | "AV" => ["N", "A", "L", "P"]
  | "AC" => ["L", "H"]
  | "PR" => ["N", "L", "H"]
  | "UI" => ["N", "R"]
  | "S" => ["U", "C"]
  | "C" => ["N", "L", "H"]
  | "I" => ["N", "L", "H"]
  | "A" => ["N", "L", "H"]
  | "E" => ["X", "H", "F", "P", "U"]
  | "RL" => ["X", "U", "W", "T", "O"]
  | "RC" => ["X", "C", "R", "U"]
  | "CR" => ["X", "H", "M", "L"]
  | "IR" => ["X", "H", "M", "L"]
  | "AR" => ["X", "H", "M", "L"]
  | "MAV" => ["X", "N", "A", "L", "P"]
  | "MAC" => ["X", "L", "H"]
  | "MPR" => ["X", "N", "L", "H"]
  | "MUI" => ["X", "N", "R"]
  | "MS" => ["X", "U", "C"]
  | "MC" => ["X", "N", "L", "H"]
  | "MI" => ["X", "N", "L", "H"]
  | "MA" => ["X", "N", "L", "H"]
  | _ => []

/-! ## Parser (`src/parser.ts`) -/

/-- The match of `VERSION_REGEX = /^CVSS:(\d(?:\.\d)?)(.*)?$/` against `s.data`
after the literal prefix `CVSS:`: returns the version capture (group 1) and the
remainder (group 2).  `.` does not match line terminators and the pattern is
anchored, so a remainder containing a line terminator makes the whole regex
fail. -/
def versionMatch : List Char → Option (String × List Char)
  | c :: cs =>
    if c.isDigit then
      match cs with
      | '.' :: d :: ds =>
        if d.isDigit then
          if (ds.any isLineTerminator) then none else some (⟨[c, '.', d]⟩, ds)
        else
          if (cs.any isLineTerminator) then none else some (⟨[c]⟩, cs)
      | _ => if (cs.any isLineTerminator) then none else some (⟨[c]⟩, cs)
    else none
  | [] => none

/-- `VERSION_REGEX.exec(cvssStr)`, as (group 1, group 2). -/
def versionRegexExec (s : String) : Option (String × List Char) :=
  if strStartsWith s "CVSS:" then versionMatch (s.data.drop 5) else none

/-- `parseVersion` (`parser.ts`): group 1 of the regex match. -/
def parseVersion (s : String) : Option String :=
  (versionRegexExec s).map (·.1)

/-- `parseVector` (`parser.ts`): group 2 of the regex match, `.substr(1).trim()`
(drop the first character — normally the `/` after the version — then trim). -/
def parseVector (s : String) : Option String :=
  (versionRegexExec s).map (fun p => ⟨jsTrimList p.2.tail⟩)

/-- The arrow function inside `parseMetrics`' `.map`: split one `/`-segment on
`:`; JS array destructuring `[key, value]` takes the first two fields and
ignores the rest, and `!(key && value)` rejects an empty or missing field. -/
def parseMetricSegment (seg : String) : Except VError (String × String) :=
  match splitOnChar ':' seg.data with
  | k :: v :: _ =>
    if k ≠ [] ∧ v ≠ [] then .ok (⟨k⟩, ⟨v⟩) else .error (.invalidMetricSegment seg)
  | _ => .error (.invalidMetricSegment seg)

/-- The `.map` of `parseMetrics` over the segments, left to right: the first
bad segment throws. -/
def parseMetricsList : List (List Char) → Except VError (List (String × String))
  | [] => .ok []
  | seg :: rest => do
    let kv ← parseMetricSegment ⟨seg⟩
    let tail ← parseMetricsList rest
    return kv :: tail

/-- `parseMetrics` (`parser.ts`): split the vector body on `/` and parse each
segment. -/
def parseMetrics (vectorStr : String) : Except VError (List (String × String)) :=
  parseMetricsList (splitOnChar '/' vectorStr.data)

/-- `parseMetricsAsMap` (`parser.ts`): fold the parsed pairs into a map,
throwing on a duplicate key. -/
def parseMetricsAsMap (s : String) : Except VError MetricsMap := do
  let pairs ← parseMetrics ((parseVector s).getD "")
  pairs.foldlM
    (fun res kv =>
      if mapHas res kv.1 then .error (.duplicateMetric kv.1 kv.2)
      else .ok (mapSet res kv.1 kv.2))
    ([] : MetricsMap)

/-! ## Validator (`src/validator.ts`) -/

/-- First failing element of a list, as in the source's fail-fast `for` loops. -/
def firstErr (f : α → Option VError) : List α → Except VError Unit
  | [] => .ok ()
  | x :: xs =>
    match f x with
    | some e => .error e
    | none => firstErr f xs

/-- `validateVersion` (`validator.ts`). -/
def validateVersion (versionStr : Option String) : Except VError Unit :=
  match versionStr with
  | none => .error (.unsupportedVersion none)
  | some v =>
    if v ≠ "3.0" ∧ v ≠ "3.1" then .error (.unsupportedVersion (some v)) else .ok ()

/-- `validateVector` (`validator.ts`): empty (falsy) body or body containing `"//"`. -/
def validateVector (vectorStr : String) : Except VError Unit :=
  if vectorStr = "" ∨ strContainsSub vectorStr "//" then .error .malformedVector else .ok ()

/-- `checkMandatoryMetrics` (`validator.ts`): every base metric must be present;
the loop throws at the first absent one. -/
def checkMandatoryMetrics (m : MetricsMap) : Except VError Unit :=
  firstErr
    (fun metric => if mapHas m metric then none else some (.missingMandatoryMetric metric))
    baseMetrics

/-- `checkUnknownMetrics` (`validator.ts`): every key of the map must be a known
metric code; the loop throws at the first unknown key (keys in insertion order). -/
def checkUnknownMetrics (m : MetricsMap) (known : List String) : Except VError Unit :=
  firstErr
    (fun k => if known.contains k then none else some (.unknownMetric k))
    (m.map (·.1))

/-- `checkMetricsValues` (`validator.ts`): for each known metric that is present
with a truthy value, the value must be in that metric's legal set. -/
def checkMetricsValues (m : MetricsMap) (metrics : List String) : Except VError Unit :=
  firstErr
    (fun metric =>
      match mapGet? m metric with
      | none => none
      | some v =>
        -- `if (!userValue) continue;` — the empty string is falsy in JS.
        if v = "" then none
        else if (allKnownMetricsValues metric).contains v then none
        else some (.invalidMetricValue metric v))
    metrics

/-- `ValidationResult` (`validator.ts`). -/
structure ValidationResult where
  metricsMap : MetricsMap
  isTemporal : Bool
  isEnvironmental : Bool
  versionStr : Option String
  deriving DecidableEq, Repr

/-- `validate` (`validator.ts`): prefix, version, vector body, parse, mandatory
metrics, unknown metrics, metric values — fail-fast, in that order. -/
def validate (s : String) : Except VError ValidationResult :=
  if ¬ strStartsWith s "CVSS:" then .error .missingPrefix
  else
    match validateVersion (parseVersion s) with
    | .error e => .error e
    | .ok _ =>
      match parseVector s with
      | none => .error .malformedVector
      | some vec =>
        if vec = "" then .error .malformedVector
        else
          match validateVector vec with
          | .error e => .error e
          | .ok _ =>
            match parseMetricsAsMap s with
            | .error e => .error e
            | .ok map =>
              match checkMandatoryMetrics map with
              | .error e => .error e
              | .ok _ =>
                match checkUnknownMetrics map allKnownMetrics with
                | .error e => .error e
                | .ok _ =>
                  match checkMetricsValues map allKnownMetrics with
                  | .error e => .error e
                  | .ok _ =>
                    .ok { metricsMap := map
                          isTemporal := (map.map (·.1)).any (fun k => temporalMetrics.contains k)
                          isEnvironmental :=
                            (map.map (·.1)).any (fun k => environmentalMetrics.contains k)
                          versionStr := parseVersion s }

/-! ## Score calculator (`src/score-calculator.ts`) -/

/-- The merged weight tables `{...baseMetricValueScores, ...temporalMetricValueScores,
...environmentalMetricValueScores}` built inside `getMetricNumericValue`, as a
lookup function.  `PR` and `MPR` map to `null` in the source (scope-dependent,
handled by `getPrivilegesRequiredNumericValue`), modelled as `none`; so is any
code absent from all three tables. -/
def combinedScoreTable (m : String) : Option (List (String × ℚ)) :=
  match m with
  | "AV" => some [("N", 0.85), ("A", 0.62), ("L", 0.55), ("P", 0.2)]
  | "AC" => some [("L", 0.77), ("H", 0.44)]
  | "PR" => none
  | "UI" => some [("N", 0.85), ("R", 0.62)]
  | "S" => some [("U", 0), ("C", 0)]
  | "C" => some [("N", 0), ("L", 0.22), ("H", 0.56)]
  | "I" => some [("N", 0), ("L", 0.22), ("H", 0.56)]
  | "A" => some [("N", 0), ("L", 0.22), ("H", 0.56)]
  | "E" => some [("X", 1), ("U", 0.91), ("F", 0.97), ("P", 0.94), ("H", 1)]
  | "RL" => some [("X", 1), ("O", 0.95), ("T", 0.96), ("W", 0.97), ("U", 1)]
  | "RC" => some [("X", 1), ("U", 0.92), ("R", 0.96), ("C", 1)]
  | "CR" => some [("M", 1), ("L", 0.5), ("H", 1.5), ("X", 1)]
  | "IR" => some [("M", 1), ("L", 0.5), ("H", 1.5), ("X", 1)]
  | "AR" => some [("M", 1), ("L", 0.5), ("H", 1.5), ("X", 1)]
  | "MAV" => some [("N", 0.85), ("A", 0.62), ("L", 0.55), ("P", 0.2)]
  | "MAC" => some [("L", 0.77), ("H", 0.44)]
  | "MPR" => none
  | "MUI" => some [("N", 0.85), ("R", 0.62)]
  | "MS" => some [("U", 0), ("C", 0)]
  | "MC" => some [("N", 0), ("L", 0.22), ("H", 0.56)]
  | "MI" => some [("N", 0), ("L", 0.22), ("H", 0.56)]
  | "MA" => some [("N", 0), ("L", 0.22), ("H", 0.56)]
  | _ => none

/-- `getPrivilegesRequiredNumericValue` (`score-calculator.ts`). -/
def getPrivilegesRequiredNumericValue (value scopeValue : String) :
    Except VError ℚ :=
  if scopeValue ≠ "U" ∧ scopeValue ≠ "C" then .error (.unknownScopeValue scopeValue)
  else
    match value with
    | "N" => .ok 0.85
    | "L" => .ok (if scopeValue = "U" then 0.62 else 0.68)
    | "H" => .ok (if scopeValue = "U" then 0.27 else 0.5)
    | _ => .error (.unknownPrivilegesRequiredValue value)

/-- `getMetricValue` (`score-calculator.ts`): throw if the metric is absent. -/
def getMetricValue (metric : String) (m : MetricsMap) : Except VError String :=
  match mapGet? m metric with
  | none => .error (.missingMetric metric)
  | some v => .ok v

/-- `getMetricNumericValue` (`score-calculator.ts`): the scope-dependent `PR`/`MPR`
special cases, then the merged-table lookup. -/
def getMetricNumericValue (metric : String) (m : MetricsMap) : Except VError ℚ := do
  let value ← getMetricValue metric m
  if metric = "PR" then
    let scope ← getMetricValue "S" m
    getPrivilegesRequiredNumericValue value scope
  else if metric = "MPR" then
    let scope ← getMetricValue "MS" m
    getPrivilegesRequiredNumericValue value scope
  else
    match combinedScoreTable metric with
    | none => .error (.internalScoreTableError metric)
    | some tbl =>
      match (tbl.find? (fun p => p.1 = value)).map (·.2) with
      | none => .error (.unknownMetricValue value)
      | some w => .ok w

/-- `calculateIss` (`score-calculator.ts`):
`ISS = 1 − (1−C)(1−I)(1−A)`. -/
def calculateIss (m : MetricsMap) : Except VError ℚ := do
  let confidentiality ← getMetricNumericValue "C" m
  let integrity ← getMetricNumericValue "I" m
  let availability ← getMetricNumericValue "A" m
  return 1 - (1 - confidentiality) * (1 - integrity) * (1 - availability)

/-- `calculateMiss` (`score-calculator.ts`):
`MISS = min(1 − (1 − CR·MC)(1 − IR·MI)(1 − AR·MA), 0.915)`. -/
def calculateMiss (m : MetricsMap) : Except VError ℚ := do
  let rConfidentiality ← getMetricNumericValue "CR" m
  let mConfidentiality ← getMetricNumericValue "MC" m
  let rIntegrity ← getMetricNumericValue "IR" m
  let mIntegrity ← getMetricNumericValue "MI" m
  let rAvailability ← getMetricNumericValue "AR" m
  let mAvailability ← getMetricNumericValue "MA" m
  return min
    (1 - (1 - rConfidentiality * mConfidentiality) *
      (1 - rIntegrity * mIntegrity) *
      (1 - rAvailability * mAvailability))
    0.915

/-- `calculateImpact` (`score-calculator.ts`): `6.42·ISS` if Scope is `U`
(absent scope falls into the Changed branch, as `get` returns `undefined`). -/
def calculateImpact (m : MetricsMap) (iss : ℚ) : ℚ :=
  if mapGet? m "S" = some "U" then 6.42 * iss
  else 7.52 * (iss - 0.029) - 3.25 * (iss - 0.02) ^ (15 : ℕ)

/-- `calculateModifiedImpact` (`score-calculator.ts`): the version string gates
the exponent (15 for `"3.0"`, else 13) and the MISS coefficient (1 for `"3.0"`,
else 0.9731). -/
def calculateModifiedImpact (m : MetricsMap) (miss : ℚ) (versionStr : Option String) : ℚ :=
  if mapGet? m "MS" = some "U" then 6.42 * miss
  else
    7.52 * (miss - 0.029) -
      3.25 * (miss * (if versionStr = some "3.0" then 1 else 0.9731) - 0.02) ^
        (if versionStr = some "3.0" then (15 : ℕ) else 13)

/-- `calculateExploitability` (`score-calculator.ts`):
`8.22 · AV · AC · PR · UI`. -/
def calculateExploitability (m : MetricsMap) : Except VError ℚ := do
  let av ← getMetricNumericValue "AV" m
  let ac ← getMetricNumericValue "AC" m
  let pr ← getMetricNumericValue "PR" m
  let ui ← getMetricNumericValue "UI" m
  return 8.22 * av * ac * pr * ui

/-- `calculateModifiedExploitability` (`score-calculator.ts`). -/
def calculateModifiedExploitability (m : MetricsMap) : Except VError ℚ := do
  let mav ← getMetricNumericValue "MAV" m
  let mac ← getMetricNumericValue "MAC" m
  let mpr ← getMetricNumericValue "MPR" m
  let mui ← getMetricNumericValue "MUI" m
  return 8.22 * mav * mac * mpr * mui

/-- JS `Math.round`: round half toward positive infinity. -/
def jsRound (x : ℚ) : ℤ := ⌊x + 1 / 2⌋

/-- `roundUp` (`score-calculator.ts`).  `Math.floor(intInput / 10000)` is floor
division, which for the positive divisor `10000` is Lean's Euclidean `Int`
division `/`. -/
def roundUp (input : ℚ) : ℚ :=
  let intInput : ℤ := jsRound (input * 100000)
  if intInput % 10000 = 0 then (intInput : ℚ) / 100000
  else ((intInput / 10000 + 1 : ℤ) : ℚ) / 10

/-- `modifiedMetricsMap` (`score-calculator.ts`): Modified metric code →
base metric code. -/
def modifiedMetricsMap (k : String) : Option String :=
  match k with
  | "MAV" => some "AV"
  | "MAC" => some "AC"
  | "MPR" => some "PR"
  | "MUI" => some "UI"
  | "MS" => some "S"
  | "MC" => some "C"
  | "MI" => some "I"
  | "MA" => some "A"
  | _ => none

/-- `populateTemporalMetricDefaults` (`score-calculator.ts`): absent temporal
metrics get `"X"`. -/
def populateTemporalMetricDefaults (m : MetricsMap) : MetricsMap :=
  temporalMetrics.foldl
    (fun acc metric => if mapHas acc metric then acc else mapSet acc metric "X") m

/-- The body of the `for` loop of `populateEnvironmentalMetricDefaults`, for one
environmental metric: default an absent metric to `"X"`; then, if the value is
`"X"`, look up the Modified-counterpart table (throwing when there is no entry —
which is the case for `CR`/`IR`/`AR`) and overwrite with the counterpart's value
when the counterpart is present, else with `"X"`. -/
def envDefaultStep (m : MetricsMap) (metric : String) : Except VError MetricsMap :=
  let m1 := if mapHas m metric then m else mapSet m metric "X"
  if mapGet? m1 metric = some "X" then
    match modifiedMetricsMap metric with
    | none => .error (.missingModifiedMetric metric)
    | some modifiedMetric =>
      .ok (mapSet m1 metric
        (if mapHas m1 modifiedMetric then (mapGet? m1 modifiedMetric).getD "X" else "X"))
  else .ok m1

/-- `populateEnvironmentalMetricDefaults` (`score-calculator.ts`): the loop over
the 11 environmental metrics in declaration order. -/
def populateEnvironmentalMetricDefaults (m : MetricsMap) : Except VError MetricsMap :=
  environmentalMetrics.foldlM envDefaultStep m

/-- `ScoreResult` (`score-calculator.ts`). -/
structure ScoreResult where
  score : ℚ
  impact : ℚ
  exploitability : ℚ
  metricsMap : MetricsMap
  deriving DecidableEq, Repr

/-- `calculateBaseResult` (`score-calculator.ts`). -/
def calculateBaseResult (cvssString : String) : Except VError ScoreResult := do
  let vr ← validate cvssString
  let metricsMap := vr.metricsMap
  let iss ← calculateIss metricsMap
  let impact := calculateImpact metricsMap iss
  let exploitability ← calculateExploitability metricsMap
  let scopeUnchanged := mapGet? metricsMap "S" = some "U"
  let score :=
    if impact ≤ 0 then 0
    else if scopeUnchanged then roundUp (min (impact + exploitability) 10)
    else roundUp (min (1.08 * (impact + exploitability)) 10)
  return { score := score
           impact := if impact ≤ 0 then 0 else roundUp impact
           exploitability := if impact ≤ 0 then 0 else roundUp exploitability
           metricsMap := metricsMap }

/-- `calculateBaseScore` (`score-calculator.ts`). -/
def calculateBaseScore (cvssString : String) : Except VError ℚ :=
  (calculateBaseResult cvssString).map (·.score)

/-- `calculateEnvironmentalResult` (`score-calculator.ts`). -/
def calculateEnvironmentalResult (cvssString : String) : Except VError ScoreResult := do
  let vr ← validate cvssString
  let versionStr := vr.versionStr
  let m1 := populateTemporalMetricDefaults vr.metricsMap
  let metricsMap ← populateEnvironmentalMetricDefaults m1
  let miss ← calculateMiss metricsMap
  if versionStr = none then throw .versionNotFound
  let impact := calculateModifiedImpact metricsMap miss versionStr
  let exploitability ← calculateModifiedExploitability metricsMap
  let scopeUnchanged := mapGet? metricsMap "MS" = some "U"
  let score ←
    if impact ≤ 0 then pure (0 : ℚ)
    else do
      let inner :=
        if scopeUnchanged then roundUp (min (impact + exploitability) 10)
        else roundUp (min (1.08 * (impact + exploitability)) 10)
      let e ← getMetricNumericValue "E" metricsMap
      let rl ← getMetricNumericValue "RL" metricsMap
      let rc ← getMetricNumericValue "RC" metricsMap
      pure (roundUp (inner * e * rl * rc))
  return { score := score
           impact := if impact ≤ 0 then 0 else roundUp impact
           exploitability := if impact ≤ 0 then 0 else roundUp exploitability
           metricsMap := metricsMap }

/-- `calculateEnvironmentalScore` (`score-calculator.ts`). -/
def calculateEnvironmentalScore (cvssString : String) : Except VError ℚ :=
  (calculateEnvironmentalResult cvssString).map (·.score)

/-- `calculateTemporalResult` (`score-calculator.ts`): temporal defaults on the
validated map, base result recomputed from the raw string, then
`roundUp(score · RC · E · RL)`. -/
def calculateTemporalResult (cvssString : String) : Except VError ScoreResult := do
  let vr ← validate cvssString
  let metricsMap := populateTemporalMetricDefaults vr.metricsMap
  let br ← calculateBaseResult cvssString
  let rc ← getMetricNumericValue "RC" metricsMap
  let e ← getMetricNumericValue "E" metricsMap
  let rl ← getMetricNumericValue "RL" metricsMap
  let tempScore := roundUp (br.score * rc * e * rl)
  return { score := tempScore
           impact := br.impact
           exploitability := br.exploitability
           metricsMap := metricsMap }

/-- `calculateTemporalScore` (`score-calculator.ts`). -/
def calculateTemporalScore (cvssString : String) : Except VError ℚ :=
  (calculateTemporalResult cvssString).map (·.score)

/-! ## `roundUp` theory -/

/-- Helper: the integer `roundUp` effectively produces, divided by 10:
quotient by 10000, bumped by one unless the division is exact. -/
def gInt (i : ℤ) : ℤ := if i % 10000 = 0 then i / 10000 else i / 10000 + 1

/-- The conjunction of per-map facts that hold after a successful `validate`:
every base metric is present with a legal value, and every entry of the map is
a known metric carrying one of its legal values. -/
def ValidatedMap (m : MetricsMap) : Prop :=
  (∀ b ∈ baseMetrics, ∃ v, mapGet? m b = some v ∧ v ∈ allKnownMetricsValues b) ∧
  (∀ k v, mapGet? m k = some v → k ∈ allKnownMetrics ∧ v ∈ allKnownMetricsValues k)

/-- The target property of one Modified metric after environmental default
population: a concrete non-`X` value — its own value if one other than `X` was
supplied, otherwise the value of the corresponding base metric. -/
def ModResolved (m m' : MetricsMap) (mm bm : String) : Prop :=
  ∃ w bv, mapGet? m bm = some bv ∧ mapGet? m' mm = some w ∧ w ≠ "X" ∧
    w = match mapGet? m mm with
        | some v => if v = "X" then bv else v
        | none => bv

/-- `.error e ↦ some e`, `.ok ↦ none`: the outcome of one validation stage. -/
def errOf : Except VError Unit → Option VError
  | .error e => some e
  | .ok _ => none

/-- Spec-side transcription of the documented `validate` contract: the ordered
cascade of checks, returning the error of the earliest failing one (prefix,
then version, then vector body, then metric parsing, then mandatory metrics,
then unknown metrics, then metric values) and `none` when all pass. This
definition follows the specification text; the theorem comparing it with
`validate` shows the code fails fast in exactly this order. -/
def specFirstError (s : String) : Option VError :=
  if strStartsWith s "CVSS:" = false then some .missingPrefix
  else
    match parseVersion s with
    | none => some (.unsupportedVersion none)
    | some v =>
      if v ≠ "3.0" ∧ v ≠ "3.1" then some (.unsupportedVersion (some v))
      else
        match parseVector s with
        | none => some .malformedVector
        | some vec =>
          if vec = "" ∨ strContainsSub vec "//" then some .malformedVector
          else
            match parseMetricsAsMap s with
            | .error e => some e
            | .ok map =>
              match errOf (checkMandatoryMetrics map) with
              | some e => some e
              | none =>
                match errOf (checkUnknownMetrics map allKnownMetrics) with
                | some e => some e
                | none => errOf (checkMetricsValues map allKnownMetrics)


theorem roundUp_eq_gInt (x : ℚ) :
    roundUp x = ((gInt (jsRound (x * 100000)) : ℤ) : ℚ) / 10 := by
  simp only [roundUp, gInt]
  by_cases h : jsRound (x * 100000) % 10000 = 0
  · rw [if_pos h, if_pos h]
    obtain ⟨q, hq⟩ : (10000 : ℤ) ∣ jsRound (x * 100000) := Int.dvd_of_emod_eq_zero h
    rw [hq, Int.mul_ediv_cancel_left q (by norm_num)]
    push_cast
    ring
  · rw [if_neg h, if_neg h]

theorem gInt_mono {i j : ℤ} (h : i ≤ j) : gInt i ≤ gInt j := by
  unfold gInt
  split <;> split <;> omega

theorem jsRound_le_jsRound {x y : ℚ} (h : x ≤ y) : jsRound x ≤ jsRound y :=
  Int.floor_le_floor (by linarith)

theorem roundUp_mono {x y : ℚ} (h : x ≤ y) : roundUp x ≤ roundUp y := by
  rw [roundUp_eq_gInt, roundUp_eq_gInt]
  have hij : jsRound (x * 100000) ≤ jsRound (y * 100000) :=
    jsRound_le_jsRound (mul_le_mul_of_nonneg_right h (by norm_num))
  have hg : ((gInt (jsRound (x * 100000)) : ℤ) : ℚ) ≤
      ((gInt (jsRound (y * 100000)) : ℤ) : ℚ) := by exact_mod_cast gInt_mono hij
  linarith

/-- `roundUp` always lands on an integer multiple of `1/10`. -/
theorem roundUp_eq_int_div_ten (x : ℚ) : ∃ n : ℤ, roundUp x = (n : ℚ) / 10 :=
  ⟨gInt (jsRound (x * 100000)), roundUp_eq_gInt x⟩

/-- Integer multiples of `1/10` are fixed points of `roundUp`. -/
theorem roundUp_int_div_ten (n : ℤ) : roundUp ((n : ℚ) / 10) = (n : ℚ) / 10 := by
  unfold roundUp jsRound
  have h1 : ((n : ℚ) / 10) * 100000 = ((10000 * n : ℤ) : ℚ) := by push_cast; ring
  rw [h1]
  have h2 : ⌊((10000 * n : ℤ) : ℚ) + 1 / 2⌋ = 10000 * n := by
    rw [add_comm, Int.floor_add_int]
    norm_num
  rw [h2]
  have h3 : (10000 * n) % 10000 = 0 := Int.mul_emod_right _ _
  simp only [h3, if_true]
  have h4 : (10000 * n : ℤ) / 10000 = n := Int.mul_ediv_cancel_left n (by norm_num)
  push_cast
  ring

/-- `roundUp` is idempotent (with no range restriction at all). -/
theorem roundUp_idem (x : ℚ) : roundUp (roundUp x) = roundUp x := by
  obtain ⟨n, hn⟩ := roundUp_eq_int_div_ten x
  rw [hn, roundUp_int_div_ten]

/-- On `[0, 10]`, `roundUp` lands on `n/10` with `0 ≤ n ≤ 100`; in particular
it stays inside `[0, 10]`. -/
theorem roundUp_mem (x : ℚ) (h0 : 0 ≤ x) (h10 : x ≤ 10) :
    ∃ n : ℕ, n ≤ 100 ∧ roundUp x = (n : ℚ) / 10 := by
  rw [roundUp_eq_gInt]
  have hlo : (0 : ℤ) ≤ jsRound (x * 100000) := by
    have : (0 : ℚ) ≤ x * 100000 := by positivity
    calc (0 : ℤ) = ⌊(1 / 2 : ℚ)⌋ := by norm_num
    _ ≤ ⌊x * 100000 + 1 / 2⌋ := Int.floor_le_floor (by linarith)
  have hhi : jsRound (x * 100000) ≤ 1000000 := by
    have hx : x * 100000 + 1 / 2 ≤ 1 / 2 + ((1000000 : ℤ) : ℚ) := by
      push_cast
      nlinarith
    calc jsRound (x * 100000) ≤ ⌊(1 / 2 : ℚ) + ((1000000 : ℤ) : ℚ)⌋ :=
          Int.floor_le_floor hx
    _ = ⌊(1 / 2 : ℚ)⌋ + 1000000 := Int.floor_add_int _ _
    _ = 1000000 := by norm_num
  have hg0 : 0 ≤ gInt (jsRound (x * 100000)) := by unfold gInt; split <;> omega
  have hg100 : gInt (jsRound (x * 100000)) ≤ 100 := by unfold gInt; split <;> omega
  refine ⟨(gInt (jsRound (x * 100000))).toNat, by omega, ?_⟩
  congr 1
  exact_mod_cast (Int.toNat_of_nonneg hg0).symm

/-- Scores in the image of `roundUp` on `[0,10]` are within bounds. -/
theorem roundUp_nonneg_le_ten (x : ℚ) (h0 : 0 ≤ x) (h10 : x ≤ 10) :
    0 ≤ roundUp x ∧ roundUp x ≤ 10 := by
  obtain ⟨n, hn, hx⟩ := roundUp_mem x h0 h10
  constructor
  · rw [hx]; positivity
  · rw [hx]
    rw [div_le_iff₀ (by norm_num)]
    have : (n : ℚ) ≤ 100 := by exact_mod_cast hn
    linarith

/-! ## Claim C7: round-trip stability of `roundUp` on `[0, 10]` -/

/-- **C7**: `roundUp` is idempotent on `[0, 10]`: for every `x` with
`0 ≤ x ≤ 10`, `roundUp (roundUp x) = roundUp x` (the source's `roundUp`
multiplies by 100000, rounds to nearest, and either divides back out or
bumps the tenths digit). -/
theorem roundUp_roundtrip (x : ℚ) (h0 : 0 ≤ x) (h10 : x ≤ 10) :
    roundUp (roundUp x) = roundUp x :=
  roundUp_idem x

/-- Witness for C7 at `x = 2.34`. -/
theorem roundUp_roundtrip_witness :
    (0 : ℚ) ≤ 2.34 ∧ (2.34 : ℚ) ≤ 10 ∧ roundUp (roundUp 2.34) = roundUp 2.34 :=
  ⟨by norm_num, by norm_num, roundUp_roundtrip 2.34 (by norm_num) (by norm_num)⟩

/-! ## Claim C3: the `CVSS:3.0` reference vector

The spec claims a Base score of `2.5` for
`CVSS:3.0/AV:A/AC:H/PR:H/UI:R/S:U/C:N/I:N/A:L`.  The code computes
`ISS = 0.22`, `Impact = 6.42·0.22 = 1.4124`,
`Exploitability = 8.22·0.62·0.44·0.27·0.62 = 0.3753804384`, and
`roundUp(1.7877804384) = 1.8` — which also agrees with the official CVSS
equations for this vector.  The claim's expected value is wrong. -/

/-- **C3 counterexample**: the code returns `1.8`, not `2.5`, on the claimed
vector. -/
theorem baseScore_v30_ref_not_2_5 :
    calculateBaseScore "CVSS:3.0/AV:A/AC:H/PR:H/UI:R/S:U/C:N/I:N/A:L" = .ok 1.8 ∧
      calculateBaseScore "CVSS:3.0/AV:A/AC:H/PR:H/UI:R/S:U/C:N/I:N/A:L" ≠ .ok 2.5 := by
  have h : calculateBaseScore "CVSS:3.0/AV:A/AC:H/PR:H/UI:R/S:U/C:N/I:N/A:L" = .ok 1.8 := by
    with_unfolding_all rfl
  refine ⟨h, ?_⟩
  rw [h]
  intro hc
  have h18 : (1.8 : ℚ) = 2.5 := by injection hc
  norm_num at h18

/-- **C3 (amended)**: `calculateBaseScore` on
`CVSS:3.0/AV:A/AC:H/PR:H/UI:R/S:U/C:N/I:N/A:L` returns exactly `1.8`. -/
theorem baseScore_v30_ref_eq_1_8 :
    calculateBaseScore "CVSS:3.0/AV:A/AC:H/PR:H/UI:R/S:U/C:N/I:N/A:L" = .ok 1.8 := by
  with_unfolding_all rfl

/-! ## Claim C4: the `CVSS:3.1` reference vectors -/

/-- **C4**: the two CVSS 3.1 reference vectors score exactly `9.8`
(Scope Unchanged) and exactly `10.0` (Scope Changed). -/
theorem baseScore_v31_reference_vectors :
    calculateBaseScore "CVSS:3.1/AV:N/AC:L/PR:N/UI:N/S:U/C:H/I:H/A:H" = .ok 9.8 ∧
      calculateBaseScore "CVSS:3.1/AV:N/AC:L/PR:N/UI:N/S:C/C:H/I:H/A:H" = .ok 10.0 :=
  ⟨by with_unfolding_all rfl, by with_unfolding_all rfl⟩

/-! ## Claim C1: environmental default population and `MissingModifiedMetric`

The loop of `populateEnvironmentalMetricDefaults` runs over **all eleven**
environmental metrics.  For `CR`/`IR`/`AR` — which have no entry in
`modifiedMetricsMap` — the `X` branch therefore throws
`Missing modified metric for ${metric}` whenever the metric is absent or
explicitly `X`.  Since `AR` is iterated first, any vector accepted by
`validate` that does not carry all three Requirement metrics with non-`X`
values makes `calculateEnvironmentalScore` throw.  This contradicts the spec
(the error is documented as unreachable), the function's own documentation
("populates the missing environmental metric values with default values"),
and the README ("handles missing ... environmental metrics by assigning
defaults"). -/

/-- **C1 (code bug)**: the fully valid reference vector — accepted by
`validate` — makes environmental scoring throw `MissingModifiedMetric "AR"`,
because the absent `AR` is defaulted to `X` and then looked up in
`modifiedMetricsMap`, which has no entry for it. -/
theorem envScore_raises_missingModifiedMetric :
    validate "CVSS:3.1/AV:N/AC:L/PR:N/UI:N/S:U/C:H/I:H/A:H" =
      .ok { metricsMap := [("AV", "N"), ("AC", "L"), ("PR", "N"), ("UI", "N"),
                           ("S", "U"), ("C", "H"), ("I", "H"), ("A", "H")]
            isTemporal := false
            isEnvironmental := false
            versionStr := some "3.1" } ∧
    calculateEnvironmentalScore "CVSS:3.1/AV:N/AC:L/PR:N/UI:N/S:U/C:H/I:H/A:H" =
      .error (.missingModifiedMetric "AR") :=
  ⟨by with_unfolding_all rfl, by with_unfolding_all rfl⟩

/-! ## Claim C9: segments with more than one `:`

`parseMetrics` destructures `metric.split(":")` as `[key, value]`, which in
JS takes the **first two** fields and silently discards the rest, so
`"AV:N:X"` parses as `(AV, N)` instead of being rejected. -/

/-- **C9 counterexample**: a segment with two `:` separators is parsed, not
rejected: `parseMetrics "AV:N:X"` succeeds with `AV ↦ N` (and a whole vector
containing that segment passes `validate`). -/
theorem parseMetrics_accepts_multi_colon_segment :
    parseMetrics "AV:N:X" = .ok [("AV", "N")] ∧
    validate "CVSS:3.1/AV:N:X/AC:L/PR:N/UI:N/S:U/C:H/I:H/A:H" =
      .ok { metricsMap := [("AV", "N"), ("AC", "L"), ("PR", "N"), ("UI", "N"),
                           ("S", "U"), ("C", "H"), ("I", "H"), ("A", "H")]
            isTemporal := false
            isEnvironmental := false
            versionStr := some "3.1" } :=
  ⟨by with_unfolding_all rfl, by with_unfolding_all rfl⟩

/-- **C9 (amended)**: a `/`-segment raises `InvalidMetricSegment` exactly when
its first or second `:`-field is missing or empty; when the first two fields
are non-empty the segment parses as that key/value pair, with any further
`:`-fields discarded. -/
theorem parseMetricSegment_spec (seg : String) :
    (parseMetricSegment seg = .error (.invalidMetricSegment seg) ↔
      ∀ k v rest, splitOnChar ':' seg.data = k :: v :: rest → k = [] ∨ v = []) ∧
    (∀ k v rest, splitOnChar ':' seg.data = k :: v :: rest → k ≠ [] → v ≠ [] →
      parseMetricSegment seg = .ok (⟨k⟩, ⟨v⟩)) := by
  unfold parseMetricSegment
  rcases hsp : splitOnChar ':' seg.data with _ | ⟨k, _ | ⟨v, rest⟩⟩
  · exact ⟨by simp, by simp⟩
  · exact ⟨by simp, by simp⟩
  · dsimp only
    by_cases hkv : k ≠ [] ∧ v ≠ []
    · rw [if_pos hkv]
      refine ⟨⟨fun h => absurd h (by simp), fun h => ?_⟩, ?_⟩
      · rcases h k v rest rfl with h1 | h1
        · exact absurd h1 hkv.1
        · exact absurd h1 hkv.2
      · intro k' v' rest' heq hk hv
        simp only [List.cons.injEq] at heq
        obtain ⟨rfl, rfl, -⟩ := heq
        rfl
    · rw [if_neg hkv]
      refine ⟨⟨fun _ k' v' rest' heq => ?_, fun _ => rfl⟩, ?_⟩
      · simp only [List.cons.injEq] at heq
        obtain ⟨rfl, rfl, -⟩ := heq
        by_cases hk : k = []
        · exact Or.inl hk
        · refine Or.inr ?_
          by_contra hv
          exact hkv ⟨hk, hv⟩
      · intro k' v' rest' heq hk hv
        simp only [List.cons.injEq] at heq
        obtain ⟨rfl, rfl, -⟩ := heq
        exact absurd ⟨hk, hv⟩ hkv

/-- Witness for the amended C9 at the segment `"AV:N:X"`. -/
theorem parseMetricSegment_spec_witness :
    parseMetricSegment "AV:N:X" = .ok ("AV", "N") :=
  (parseMetricSegment_spec "AV:N:X").2 ['A', 'V'] ['N'] [['X']]
    (by decide) (by decide) (by decide)

/-! ## Association-list lemmas for the `Map` model -/

theorem mapGet?_nil (k : String) : mapGet? [] k = none := rfl

theorem mapGet?_cons (p : String × String) (t : MetricsMap) (k : String) :
    mapGet? (p :: t) k = if p.1 = k then some p.2 else mapGet? t k := rfl

theorem mapGet?_eq_some_mem {m : MetricsMap} {k v : String}
    (h : mapGet? m k = some v) : (k, v) ∈ m := by
  induction m with
  | nil => cases h
  | cons p t ih =>
    rw [mapGet?_cons] at h
    by_cases hp : p.1 = k
    · rw [if_pos hp] at h
      injection h with h
      obtain ⟨pk, pv⟩ := p
      simp only at hp h
      subst hp
      subst h
      exact List.mem_cons_self _ _
    · rw [if_neg hp] at h
      exact List.mem_cons_of_mem _ (ih h)

theorem mapGet?_eq_some_key_mem {m : MetricsMap} {k v : String}
    (h : mapGet? m k = some v) : k ∈ m.map (·.1) :=
  List.mem_map.mpr ⟨(k, v), mapGet?_eq_some_mem h, rfl⟩

theorem mapGet?_append_right (m₁ m₂ : MetricsMap) (k : String)
    (h : mapGet? m₁ k = none) : mapGet? (m₁ ++ m₂) k = mapGet? m₂ k := by
  induction m₁ with
  | nil => rfl
  | cons p t ih =>
    rw [mapGet?_cons] at h
    by_cases hp : p.1 = k
    · rw [if_pos hp] at h; cases h
    · rw [if_neg hp] at h
      rw [List.cons_append, mapGet?_cons, if_neg hp]
      exact ih h

/-- Updating every matching entry (the `has` branch of `mapSet`) leaves lookups
at other keys unchanged. -/
theorem mapGet?_update_ne (m : MetricsMap) (k v k' : String) (hne : k' ≠ k) :
    mapGet? (m.map (fun p => if p.1 = k then (k, v) else p)) k' = mapGet? m k' := by
  induction m with
  | nil => rfl
  | cons p t ih =>
    by_cases hp : p.1 = k
    · rw [List.map_cons, if_pos hp, mapGet?_cons, mapGet?_cons]
      rw [if_neg (show ¬ (k, v).1 = k' from fun hc => hne hc.symm),
        if_neg (show ¬ p.1 = k' from by rw [hp]; exact fun hc => hne hc.symm)]
      exact ih
    · rw [List.map_cons, if_neg hp, mapGet?_cons, mapGet?_cons]
      by_cases hp' : p.1 = k'
      · rw [if_pos hp', if_pos hp']
      · rw [if_neg hp', if_neg hp']
        exact ih

theorem mapGet?_update_self (m : MetricsMap) (k v : String)
    (h : (mapGet? m k).isSome = true) :
    mapGet? (m.map (fun p => if p.1 = k then (k, v) else p)) k = some v := by
  induction m with
  | nil => simp [mapGet?_nil] at h
  | cons p t ih =>
    by_cases hp : p.1 = k
    · rw [List.map_cons, if_pos hp, mapGet?_cons, if_pos rfl]
    · rw [mapGet?_cons, if_neg hp] at h
      rw [List.map_cons, if_neg hp, mapGet?_cons, if_neg hp]
      exact ih h

theorem mapGet?_set_self (m : MetricsMap) (k v : String) :
    mapGet? (mapSet m k v) k = some v := by
  unfold mapSet
  by_cases h : mapHas m k
  · rw [if_pos h]
    exact mapGet?_update_self m k v h
  · rw [if_neg h]
    unfold mapHas at h
    have hnone : mapGet? m k = none := by
      cases hg : mapGet? m k
      · rfl
      · rw [hg] at h; simp at h
    rw [mapGet?_append_right m [(k, v)] k hnone]
    rw [mapGet?_cons, if_pos rfl]

theorem mapGet?_set_ne (m : MetricsMap) (k v k' : String) (hne : k' ≠ k) :
    mapGet? (mapSet m k v) k' = mapGet? m k' := by
  unfold mapSet
  by_cases h : mapHas m k
  · rw [if_pos h]
    exact mapGet?_update_ne m k v k' hne
  · rw [if_neg h]
    clear h
    induction m with
    | nil =>
      simp only [List.nil_append, mapGet?_cons, mapGet?_nil]
      rw [if_neg (show ¬ (k, v).1 = k' from fun hc => hne hc.symm)]
    | cons p t ih =>
      rw [List.cons_append, mapGet?_cons, mapGet?_cons]
      by_cases hp : p.1 = k'
      · rw [if_pos hp, if_pos hp]
      · rw [if_neg hp, if_neg hp]
        exact ih

theorem mapSet_entries_subset {m : MetricsMap} {k v : String} {p : String × String}
    (hp : p ∈ mapSet m k v) : p ∈ m ∨ p = (k, v) := by
  unfold mapSet at hp
  by_cases h : mapHas m k
  · rw [if_pos h] at hp
    obtain ⟨q, hq, hqe⟩ := List.mem_map.mp hp
    by_cases hqk : q.1 = k
    · right
      rw [if_pos hqk] at hqe
      exact hqe.symm
    · left
      rw [if_neg hqk] at hqe
      rwa [← hqe]
  · rw [if_neg h] at hp
    rcases List.mem_append.mp hp with h1 | h1
    · exact Or.inl h1
    · right
      simpa using h1

/-! ## `firstErr` characterizations -/

theorem firstErr_eq_ok_iff (f : α → Option VError) (l : List α) :
    firstErr f l = .ok () ↔ ∀ x ∈ l, f x = none := by
  induction l with
  | nil => simp [firstErr]
  | cons a t ih =>
    unfold firstErr
    cases hfa : f a with
    | some e => simp [hfa]
    | none => simpa [hfa] using ih

theorem firstErr_eq_error_iff (f : α → Option VError) (l : List α) (e : VError) :
    firstErr f l = .error e ↔
      ∃ l₁ x l₂, l = l₁ ++ x :: l₂ ∧ (∀ y ∈ l₁, f y = none) ∧ f x = some e := by
  induction l with
  | nil =>
    simp only [firstErr]
    constructor
    · intro h; cases h
    · rintro ⟨l₁, x, l₂, hl, -, -⟩
      exact absurd hl (by simp)
  | cons a t ih =>
    unfold firstErr
    cases hfa : f a with
    | some e' =>
      simp only [Except.error.injEq]
      constructor
      · rintro rfl
        exact ⟨[], a, t, rfl, by simp, hfa⟩
      · rintro ⟨l₁, x, l₂, hl, hnone, hx⟩
        cases l₁ with
        | nil =>
          simp only [List.nil_append, List.cons.injEq] at hl
          obtain ⟨rfl, rfl⟩ := hl
          rw [hfa] at hx
          injection hx with hx
        | cons b t₁ =>
          simp only [List.cons_append, List.cons.injEq] at hl
          obtain ⟨rfl, -⟩ := hl
          have hb : f a = none := hnone a (by simp)
          rw [hfa] at hb
          cases hb
    | none =>
      rw [ih]
      constructor
      · rintro ⟨l₁, x, l₂, hl, hnone, hx⟩
        refine ⟨a :: l₁, x, l₂, by rw [hl, List.cons_append], ?_, hx⟩
        intro y hy
        rcases List.mem_cons.mp hy with rfl | hy'
        · exact hfa
        · exact hnone y hy'
      · rintro ⟨l₁, x, l₂, hl, hnone, hx⟩
        cases l₁ with
        | nil =>
          simp only [List.nil_append, List.cons.injEq] at hl
          obtain ⟨rfl, rfl⟩ := hl
          rw [hfa] at hx
          cases hx
        | cons b t₁ =>
          simp only [List.cons_append, List.cons.injEq] at hl
          obtain ⟨-, hl2⟩ := hl
          exact ⟨t₁, x, l₂, hl2, fun y hy => hnone y (by simp [hy]), hx⟩

/-! ## What a successful `validate` guarantees -/

theorem checkMandatoryMetrics_ok_iff (m : MetricsMap) :
    checkMandatoryMetrics m = .ok () ↔ ∀ b ∈ baseMetrics, mapHas m b = true := by
  rw [checkMandatoryMetrics, firstErr_eq_ok_iff]
  constructor
  · intro h b hb
    have := h b hb
    by_cases hhas : mapHas m b
    · exact hhas
    · rw [if_neg hhas] at this
      cases this
  · intro h b hb
    rw [if_pos (h b hb)]

theorem checkUnknownMetrics_ok_iff (m : MetricsMap) (known : List String) :
    checkUnknownMetrics m known = .ok () ↔
      ∀ k ∈ m.map (·.1), known.contains k = true := by
  rw [checkUnknownMetrics, firstErr_eq_ok_iff]
  constructor
  · intro h k hk
    have := h k hk
    by_cases hc : known.contains k
    · exact hc
    · rw [if_neg hc] at this
      cases this
  · intro h k hk
    rw [if_pos (h k hk)]

theorem checkMetricsValues_ok_imp (m : MetricsMap) (metrics : List String)
    (h : checkMetricsValues m metrics = .ok ()) :
    ∀ metric ∈ metrics, ∀ v, mapGet? m metric = some v →
      v = "" ∨ v ∈ allKnownMetricsValues metric := by
  rw [checkMetricsValues, firstErr_eq_ok_iff] at h
  intro metric hm v hv
  have := h metric hm
  rw [hv] at this
  dsimp only at this
  by_cases hve : v = ""
  · exact Or.inl hve
  · rw [if_neg hve] at this
    by_cases hc : (allKnownMetricsValues metric).contains v
    · exact Or.inr (List.elem_iff.mp hc)
    · rw [if_neg hc] at this
      cases this

theorem validateVersion_ok_iff (o : Option String) :
    validateVersion o = .ok () ↔ o = some "3.0" ∨ o = some "3.1" := by
  cases o with
  | none => simp [validateVersion]
  | some v =>
    rw [validateVersion]
    by_cases h30 : v = "3.0"
    · simp [h30]
    · by_cases h31 : v = "3.1"
      · simp [h31]
      · simp [h30, h31]

/-- Every pair produced by the segment parser has non-empty key and value. -/
theorem parseMetricSegment_ok_ne_empty {seg : String} {kv : String × String}
    (h : parseMetricSegment seg = .ok kv) : kv.1 ≠ "" ∧ kv.2 ≠ "" := by
  unfold parseMetricSegment at h
  rcases hsp : splitOnChar ':' seg.data with _ | ⟨k, _ | ⟨v, rest⟩⟩ <;> rw [hsp] at h
  · cases h
  · cases h
  · dsimp only at h
    by_cases hkv : k ≠ [] ∧ v ≠ []
    · rw [if_pos hkv] at h
      injection h with h
      rw [← h]
      refine ⟨?_, ?_⟩
      · intro hc
        exact hkv.1 (congrArg String.data hc)
      · intro hc
        exact hkv.2 (congrArg String.data hc)
    · rw [if_neg hkv] at h
      cases h

theorem parseMetricsList_ok_ne_empty {segs : List (List Char)}
    {pairs : List (String × String)} (h : parseMetricsList segs = .ok pairs) :
    ∀ p ∈ pairs, p.1 ≠ "" ∧ p.2 ≠ "" := by
  induction segs generalizing pairs with
  | nil =>
    injection h with h
    rw [← h]
    intro p hp
    cases hp
  | cons seg rest ih =>
    rw [parseMetricsList] at h
    cases hseg : parseMetricSegment ⟨seg⟩ with
    | error e => rw [hseg] at h; cases h
    | ok kv =>
      rw [hseg] at h
      cases htail : parseMetricsList rest with
      | error e =>
        rw [htail] at h
        cases h
      | ok tail =>
        rw [htail] at h
        injection h with h
        rw [← h]
        intro p hp
        rcases List.mem_cons.mp hp with rfl | hp'
        · exact parseMetricSegment_ok_ne_empty hseg
        · exact ih htail p hp'

/-- The fold of `parseMetricsAsMap`: every entry of the resulting map is either
an initial entry or one of the parsed pairs. -/
theorem parseFold_entries {pairs : List (String × String)} :
    ∀ {m0 m : MetricsMap},
      (pairs.foldlM
        (fun res kv =>
          if mapHas res kv.1 then .error (.duplicateMetric kv.1 kv.2)
          else (.ok (mapSet res kv.1 kv.2) : Except VError MetricsMap))
        m0) = .ok m →
      ∀ p ∈ m, p ∈ m0 ∨ p ∈ pairs := by
  induction pairs with
  | nil =>
    intro m0 m h p hp
    injection h with h
    rw [h]
    exact Or.inl hp
  | cons kv rest ih =>
    intro m0 m h p hp
    rw [List.foldlM_cons] at h
    by_cases hhas : mapHas m0 kv.1
    · rw [if_pos hhas] at h
      cases h
    · rw [if_neg hhas] at h
      rcases ih h p hp with hin | hin
      · rcases mapSet_entries_subset hin with h1 | h1
        · exact Or.inl h1
        · exact Or.inr (by rw [h1]; exact List.mem_cons_self _ _)
      · exact Or.inr (List.mem_cons_of_mem _ hin)

/-- Every entry of a parsed metrics map has a non-empty key and value. -/
theorem parseMetricsAsMap_ok_ne_empty {s : String} {m : MetricsMap}
    (h : parseMetricsAsMap s = .ok m) : ∀ p ∈ m, p.1 ≠ "" ∧ p.2 ≠ "" := by
  unfold parseMetricsAsMap at h
  cases hp : parseMetrics ((parseVector s).getD "") with
  | error e =>
    rw [hp] at h
    cases h
  | ok pairs =>
    rw [hp] at h
    intro p hpm
    rcases parseFold_entries h p hpm with h1 | h1
    · cases h1
    · exact parseMetricsList_ok_ne_empty hp p h1

/-- Tear `validate s = .ok vr` into its component checks. -/
theorem validate_ok_spec {s : String} {vr : ValidationResult}
    (h : validate s = .ok vr) :
    parseMetricsAsMap s = .ok vr.metricsMap ∧
    checkMandatoryMetrics vr.metricsMap = .ok () ∧
    checkUnknownMetrics vr.metricsMap allKnownMetrics = .ok () ∧
    checkMetricsValues vr.metricsMap allKnownMetrics = .ok () ∧
    (vr.versionStr = some "3.0" ∨ vr.versionStr = some "3.1") := by
  unfold validate at h
  by_cases hpre : ¬ strStartsWith s "CVSS:" = true
  · rw [if_pos hpre] at h
    cases h
  rw [if_neg hpre] at h
  cases hvv : validateVersion (parseVersion s) with
  | error e => rw [hvv] at h; cases h
  | ok u =>
  rw [hvv] at h
  dsimp only at h
  cases hvec : parseVector s with
  | none => rw [hvec] at h; cases h
  | some vec =>
  rw [hvec] at h
  dsimp only at h
  by_cases hve : vec = ""
  · rw [if_pos hve] at h
    cases h
  rw [if_neg hve] at h
  cases hvv2 : validateVector vec with
  | error e => rw [hvv2] at h; cases h
  | ok u2 =>
  rw [hvv2] at h
  dsimp only at h
  cases hmap : parseMetricsAsMap s with
  | error e => rw [hmap] at h; cases h
  | ok map =>
  rw [hmap] at h
  dsimp only at h
  cases hmand : checkMandatoryMetrics map with
  | error e => rw [hmand] at h; cases h
  | ok u3 =>
  rw [hmand] at h
  dsimp only at h
  cases hunk : checkUnknownMetrics map allKnownMetrics with
  | error e => rw [hunk] at h; cases h
  | ok u4 =>
  rw [hunk] at h
  dsimp only at h
  cases hval : checkMetricsValues map allKnownMetrics with
  | error e => rw [hval] at h; cases h
  | ok u5 =>
  rw [hval] at h
  dsimp only at h
  injection h with h
  rw [← h]
  dsimp only
  refine ⟨rfl, by rw [hmand], by rw [hunk], by rw [hval], ?_⟩
  exact (validateVersion_ok_iff (parseVersion s)).mp (by rw [hvv])

theorem validate_ok_validatedMap {s : String} {vr : ValidationResult}
    (h : validate s = .ok vr) : ValidatedMap vr.metricsMap := by
  obtain ⟨hmap, hmand, hunk, hval, -⟩ := validate_ok_spec h
  have hne := parseMetricsAsMap_ok_ne_empty hmap
  have hmand' := (checkMandatoryMetrics_ok_iff _).mp hmand
  have hunk' := (checkUnknownMetrics_ok_iff _ _).mp hunk
  have hval' := checkMetricsValues_ok_imp _ _ hval
  constructor
  · intro b hb
    have hhas := hmand' b hb
    unfold mapHas at hhas
    obtain ⟨v, hv⟩ := Option.isSome_iff_exists.mp hhas
    refine ⟨v, hv, ?_⟩
    have hbknown : b ∈ allKnownMetrics :=
      List.mem_append_left _ (List.mem_append_left _ hb)
    rcases hval' b hbknown v hv with hemp | hleg
    · exact absurd hemp (hne (b, v) (mapGet?_eq_some_mem hv)).2
    · exact hleg
  · intro k v hkv
    have hkmem : k ∈ vr.metricsMap.map (·.1) := mapGet?_eq_some_key_mem hkv
    have hkknown : k ∈ allKnownMetrics := List.elem_iff.mp (hunk' k hkmem)
    refine ⟨hkknown, ?_⟩
    rcases hval' k hkknown v hkv with hemp | hleg
    · exact absurd hemp (hne (k, v) (mapGet?_eq_some_mem hkv)).2
    · exact hleg

/-! ## Numeric lookups succeed and are bounded on validated maps -/

theorem getNum_table_ok {m : MetricsMap} {c v : String} {tbl : List (String × ℚ)}
    (hp : ¬ c = "PR") (hmp : ¬ c = "MPR")
    (htbl : combinedScoreTable c = some tbl)
    (hv : mapGet? m c = some v)
    (hfound : (tbl.find? (fun p => p.1 = v)).isSome = true) :
    ∃ pr ∈ tbl, getMetricNumericValue c m = .ok pr.2 := by
  obtain ⟨pr, hfind⟩ := Option.isSome_iff_exists.mp hfound
  refine ⟨pr, List.mem_of_find?_eq_some hfind, ?_⟩
  unfold getMetricNumericValue getMetricValue
  rw [hv]
  simp only [Except.bind, bind]
  rw [if_neg hp, if_neg hmp, htbl]
  simp only []
  rw [hfind]
  simp only [Option.map_some']

theorem getPrivilegesRequiredNumericValue_ok {v sv : String}
    (hlegv : v = "N" ∨ v = "L" ∨ v = "H") (hlegs : sv = "U" ∨ sv = "C") :
    ∃ w, getPrivilegesRequiredNumericValue v sv = .ok w ∧ 0 ≤ w ∧ w ≤ 0.85 := by
  rcases hlegs with rfl | rfl <;> rcases hlegv with rfl | rfl | rfl
  · exact ⟨0.85, by with_unfolding_all rfl, by norm_num, by norm_num⟩
  · exact ⟨0.62, by with_unfolding_all rfl, by norm_num, by norm_num⟩
  · exact ⟨0.27, by with_unfolding_all rfl, by norm_num, by norm_num⟩
  · exact ⟨0.85, by with_unfolding_all rfl, by norm_num, by norm_num⟩
  · exact ⟨0.68, by with_unfolding_all rfl, by norm_num, by norm_num⟩
  · exact ⟨0.5, by with_unfolding_all rfl, by norm_num, by norm_num⟩

theorem getNum_PR_ok {m : MetricsMap} {v sv : String}
    (hv : mapGet? m "PR" = some v) (hsv : mapGet? m "S" = some sv)
    (hlegv : v = "N" ∨ v = "L" ∨ v = "H") (hlegs : sv = "U" ∨ sv = "C") :
    ∃ w, getMetricNumericValue "PR" m = .ok w ∧ 0 ≤ w ∧ w ≤ 0.85 := by
  obtain ⟨w, hw, h0, h85⟩ := getPrivilegesRequiredNumericValue_ok hlegv hlegs
  refine ⟨w, ?_, h0, h85⟩
  unfold getMetricNumericValue getMetricValue
  rw [hv]
  dsimp only
  simp only [Except.bind, bind]
  simp only [reduceIte]
  rw [hsv]
  dsimp only
  exact hw

theorem getNum_MPR_ok {m : MetricsMap} {v sv : String}
    (hv : mapGet? m "MPR" = some v) (hsv : mapGet? m "MS" = some sv)
    (hlegv : v = "N" ∨ v = "L" ∨ v = "H") (hlegs : sv = "U" ∨ sv = "C") :
    ∃ w, getMetricNumericValue "MPR" m = .ok w ∧ 0 ≤ w ∧ w ≤ 0.85 := by
  obtain ⟨w, hw, h0, h85⟩ := getPrivilegesRequiredNumericValue_ok hlegv hlegs
  refine ⟨w, ?_, h0, h85⟩
  unfold getMetricNumericValue getMetricValue
  rw [hv]
  dsimp only
  simp only [Except.bind, bind]
  simp only [reduceIte]
  rw [hsv]
  dsimp only
  exact hw

/-! ## Temporal default population -/

/-- One step of `populateTemporalMetricDefaults` preserves present entries. -/
theorem tempStep_preserves {m : MetricsMap} {k v : String} (c : String)
    (h : mapGet? m k = some v) :
    mapGet? (if mapHas m c then m else mapSet m c "X") k = some v := by
  by_cases hc : mapHas m c
  · rw [if_pos hc]
    exact h
  · rw [if_neg hc]
    by_cases hck : k = c
    · subst hck
      unfold mapHas at hc
      rw [h] at hc
      simp at hc
    · rw [mapGet?_set_ne m c "X" k hck]
      exact h

/-- One step of `populateTemporalMetricDefaults` leaves other absent keys absent. -/
theorem tempStep_none {m : MetricsMap} {k : String} (c : String)
    (h : mapGet? m k = none) (hck : k ≠ c) :
    mapGet? (if mapHas m c then m else mapSet m c "X") k = none := by
  by_cases hc : mapHas m c
  · rw [if_pos hc]
    exact h
  · rw [if_neg hc, mapGet?_set_ne m c "X" k hck]
    exact h

/-- One step of `populateTemporalMetricDefaults` fills its own absent key with `"X"`. -/
theorem tempStep_fills {m : MetricsMap} {c : String} (h : mapGet? m c = none) :
    mapGet? (if mapHas m c then m else mapSet m c "X") c = some "X" := by
  have hc : ¬ mapHas m c = true := by
    unfold mapHas
    rw [h]
    simp
  rw [if_neg hc]
  exact mapGet?_set_self m c "X"

/-- `populateTemporalMetricDefaults` preserves every present entry. -/
theorem popT_preserves {m : MetricsMap} {k v : String}
    (h : mapGet? m k = some v) :
    mapGet? (populateTemporalMetricDefaults m) k = some v := by
  unfold populateTemporalMetricDefaults temporalMetrics
  simp only [List.foldl]
  exact tempStep_preserves _ (tempStep_preserves _ (tempStep_preserves _ h))

/-- After `populateTemporalMetricDefaults`, each of `E`, `RL`, `RC` is present,
either with its original value or with `"X"`. -/
theorem popT_temporal_present (m : MetricsMap) :
    ∀ c ∈ temporalMetrics, ∃ v, mapGet? (populateTemporalMetricDefaults m) c = some v ∧
      (mapGet? m c = some v ∨ v = "X") := by
  intro c hc
  have hsteps : populateTemporalMetricDefaults m =
      (fun acc => if mapHas acc "RC" then acc else mapSet acc "RC" "X")
      ((fun acc => if mapHas acc "RL" then acc else mapSet acc "RL" "X")
      ((fun acc => if mapHas acc "E" then acc else mapSet acc "E" "X") m)) := by
    unfold populateTemporalMetricDefaults temporalMetrics
    simp only [List.foldl]
  rcases show c = "E" ∨ c = "RL" ∨ c = "RC" by simpa [temporalMetrics] using hc with
    rfl | rfl | rfl <;> rw [hsteps] <;> dsimp only
  · cases hg : mapGet? m "E" with
    | some v =>
      exact ⟨v, tempStep_preserves _ (tempStep_preserves _ (tempStep_preserves _ hg)),
        Or.inl rfl⟩
    | none =>
      exact ⟨"X", tempStep_preserves _ (tempStep_preserves _ (tempStep_fills hg)),
        Or.inr rfl⟩
  · cases hg : mapGet? m "RL" with
    | some v =>
      exact ⟨v, tempStep_preserves _ (tempStep_preserves _ (tempStep_preserves _ hg)),
        Or.inl rfl⟩
    | none =>
      have h1 : mapGet? ((fun acc => if mapHas acc "E" then acc else mapSet acc "E" "X") m)
          "RL" = none := tempStep_none _ hg (by decide)
      exact ⟨"X", tempStep_preserves _ (tempStep_fills h1), Or.inr rfl⟩
  · cases hg : mapGet? m "RC" with
    | some v =>
      exact ⟨v, tempStep_preserves _ (tempStep_preserves _ (tempStep_preserves _ hg)),
        Or.inl rfl⟩
    | none =>
      have h1 : mapGet? ((fun acc => if mapHas acc "E" then acc else mapSet acc "E" "X") m)
          "RC" = none := tempStep_none _ hg (by decide)
      have h2 : mapGet? ((fun acc => if mapHas acc "RL" then acc else mapSet acc "RL" "X")
          ((fun acc => if mapHas acc "E" then acc else mapSet acc "E" "X") m)) "RC" = none :=
        tempStep_none _ h1 (by decide)
      exact ⟨"X", tempStep_fills h2, Or.inr rfl⟩

/-! ## The Base score on validated input -/

/-- On any vector accepted by `validate`, `calculateBaseResult` succeeds and its
score is `n/10` for some `n ≤ 100`. -/
theorem baseResult_spec {s : String} {vr : ValidationResult}
    (h : validate s = .ok vr) :
    ∃ r : ScoreResult, calculateBaseResult s = .ok r ∧
      0 ≤ r.score ∧ r.score ≤ 10 ∧ ∃ n : ℕ, n ≤ 100 ∧ r.score = (n : ℚ) / 10 := by
  obtain ⟨bp, -⟩ := validate_ok_validatedMap h
  obtain ⟨vAV, hAV, hlAV⟩ := bp "AV" (by decide)
  obtain ⟨vAC, hAC, hlAC⟩ := bp "AC" (by decide)
  obtain ⟨vPR, hPR, hlPR⟩ := bp "PR" (by decide)
  obtain ⟨vUI, hUI, hlUI⟩ := bp "UI" (by decide)
  obtain ⟨vS, hS, hlS⟩ := bp "S" (by decide)
  obtain ⟨vC, hC, hlC⟩ := bp "C" (by decide)
  obtain ⟨vI, hI, hlI⟩ := bp "I" (by decide)
  obtain ⟨vA, hA, hlA⟩ := bp "A" (by decide)
  have hAV3 : vAV = "N" ∨ vAV = "A" ∨ vAV = "L" ∨ vAV = "P" := by
    have ht : allKnownMetricsValues "AV" = ["N", "A", "L", "P"] := by with_unfolding_all rfl
    rw [ht] at hlAV
    simpa using hlAV
  have hAC3 : vAC = "L" ∨ vAC = "H" := by
    have ht : allKnownMetricsValues "AC" = ["L", "H"] := by with_unfolding_all rfl
    rw [ht] at hlAC
    simpa using hlAC
  have hPR3 : vPR = "N" ∨ vPR = "L" ∨ vPR = "H" := by
    have ht : allKnownMetricsValues "PR" = ["N", "L", "H"] := by with_unfolding_all rfl
    rw [ht] at hlPR
    simpa using hlPR
  have hUI3 : vUI = "N" ∨ vUI = "R" := by
    have ht : allKnownMetricsValues "UI" = ["N", "R"] := by with_unfolding_all rfl
    rw [ht] at hlUI
    simpa using hlUI
  have hS3 : vS = "U" ∨ vS = "C" := by
    have ht : allKnownMetricsValues "S" = ["U", "C"] := by with_unfolding_all rfl
    rw [ht] at hlS
    simpa using hlS
  have hC3 : vC = "N" ∨ vC = "L" ∨ vC = "H" := by
    have ht : allKnownMetricsValues "C" = ["N", "L", "H"] := by with_unfolding_all rfl
    rw [ht] at hlC
    simpa using hlC
  have hI3 : vI = "N" ∨ vI = "L" ∨ vI = "H" := by
    have ht : allKnownMetricsValues "I" = ["N", "L", "H"] := by with_unfolding_all rfl
    rw [ht] at hlI
    simpa using hlI
  have hA3 : vA = "N" ∨ vA = "L" ∨ vA = "H" := by
    have ht : allKnownMetricsValues "A" = ["N", "L", "H"] := by with_unfolding_all rfl
    rw [ht] at hlA
    simpa using hlA
  obtain ⟨pAV, hmemAV, hokAV⟩ := getNum_table_ok (by decide) (by decide)
    (show combinedScoreTable "AV" =
      some [("N", 0.85), ("A", 0.62), ("L", 0.55), ("P", 0.2)] by with_unfolding_all rfl)
    hAV (by rcases hAV3 with rfl | rfl | rfl | rfl <;> decide)
  obtain ⟨pAC, hmemAC, hokAC⟩ := getNum_table_ok (by decide) (by decide)
    (show combinedScoreTable "AC" = some [("L", 0.77), ("H", 0.44)] by with_unfolding_all rfl)
    hAC (by rcases hAC3 with rfl | rfl <;> decide)
  obtain ⟨pUI, hmemUI, hokUI⟩ := getNum_table_ok (by decide) (by decide)
    (show combinedScoreTable "UI" = some [("N", 0.85), ("R", 0.62)] by with_unfolding_all rfl)
    hUI (by rcases hUI3 with rfl | rfl <;> decide)
  obtain ⟨pC, hmemC, hokC⟩ := getNum_table_ok (by decide) (by decide)
    (show combinedScoreTable "C" =
      some [("N", 0), ("L", 0.22), ("H", 0.56)] by with_unfolding_all rfl)
    hC (by rcases hC3 with rfl | rfl | rfl <;> decide)
  obtain ⟨pI, hmemI, hokI⟩ := getNum_table_ok (by decide) (by decide)
    (show combinedScoreTable "I" =
      some [("N", 0), ("L", 0.22), ("H", 0.56)] by with_unfolding_all rfl)
    hI (by rcases hI3 with rfl | rfl | rfl <;> decide)
  obtain ⟨pA, hmemA, hokA⟩ := getNum_table_ok (by decide) (by decide)
    (show combinedScoreTable "A" =
      some [("N", 0), ("L", 0.22), ("H", 0.56)] by with_unfolding_all rfl)
    hA (by rcases hA3 with rfl | rfl | rfl <;> decide)
  obtain ⟨wPR, hokPR, hwPR0, hwPR85⟩ := getNum_PR_ok hPR hS hPR3 hS3
  have hwAV : 0 ≤ pAV.2 := by
    rcases show pAV = ("N", (0.85 : ℚ)) ∨ pAV = ("A", 0.62) ∨ pAV = ("L", 0.55) ∨
        pAV = ("P", 0.2) by simpa using hmemAV with rfl | rfl | rfl | rfl <;> norm_num
  have hwAC : 0 ≤ pAC.2 := by
    rcases show pAC = ("L", (0.77 : ℚ)) ∨ pAC = ("H", 0.44) by simpa using hmemAC with
      rfl | rfl <;> norm_num
  have hwUI : 0 ≤ pUI.2 := by
    rcases show pUI = ("N", (0.85 : ℚ)) ∨ pUI = ("R", 0.62) by simpa using hmemUI with
      rfl | rfl <;> norm_num
  have hIss : calculateIss vr.metricsMap =
      .ok (1 - (1 - pC.2) * (1 - pI.2) * (1 - pA.2)) := by
    unfold calculateIss
    rw [hokC]
    simp only [Except.bind, bind]
    rw [hokI]
    simp only [Except.bind, bind]
    rw [hokA]
    simp only [Except.bind, bind]
    rfl
  have hExp : calculateExploitability vr.metricsMap =
      .ok (8.22 * pAV.2 * pAC.2 * wPR * pUI.2) := by
    unfold calculateExploitability
    rw [hokAV]
    simp only [Except.bind, bind]
    rw [hokAC]
    simp only [Except.bind, bind]
    rw [hokPR]
    simp only [Except.bind, bind]
    rw [hokUI]
    simp only [Except.bind, bind]
    rfl
  have hExp0 : 0 ≤ 8.22 * pAV.2 * pAC.2 * wPR * pUI.2 := by
    have h1 : (0 : ℚ) ≤ 8.22 := by norm_num
    exact mul_nonneg (mul_nonneg (mul_nonneg (mul_nonneg h1 hwAV) hwAC) hwPR0) hwUI
  unfold calculateBaseResult
  rw [h]
  simp only [Except.bind, bind]
  rw [hIss]
  simp only [Except.bind, bind]
  rw [hExp]
  simp only [Except.bind, bind]
  set iss := 1 - (1 - pC.2) * (1 - pI.2) * (1 - pA.2) with hiss
  set ex := 8.22 * pAV.2 * pAC.2 * wPR * pUI.2 with hex
  set impact := calculateImpact vr.metricsMap iss with himpact
  refine ⟨_, rfl, ?_⟩
  dsimp only
  by_cases hi : impact ≤ 0
  · rw [if_pos hi]
    exact ⟨le_refl 0, by norm_num, 0, by norm_num, by norm_num⟩
  · rw [if_neg hi]
    have hi0 : 0 < impact := lt_of_not_le hi
    have hsum : 0 ≤ impact + ex := by linarith
    by_cases hsc : mapGet? vr.metricsMap "S" = some "U"
    · rw [if_pos hsc]
      have harg0 : 0 ≤ min (impact + ex) 10 := le_min hsum (by norm_num)
      have harg10 : min (impact + ex) 10 ≤ 10 := min_le_right _ _
      obtain ⟨n, hn, he⟩ := roundUp_mem _ harg0 harg10
      obtain ⟨h0, h10⟩ := roundUp_nonneg_le_ten _ harg0 harg10
      exact ⟨h0, h10, n, hn, he⟩
    · rw [if_neg hsc]
      have hsum' : 0 ≤ 1.08 * (impact + ex) := by linarith
      have harg0 : 0 ≤ min (1.08 * (impact + ex)) 10 := le_min hsum' (by norm_num)
      have harg10 : min (1.08 * (impact + ex)) 10 ≤ 10 := min_le_right _ _
      obtain ⟨n, hn, he⟩ := roundUp_mem _ harg0 harg10
      obtain ⟨h0, h10⟩ := roundUp_nonneg_le_ten _ harg0 harg10
      exact ⟨h0, h10, n, hn, he⟩

/-! ## The Temporal score on validated input -/

/-- On any vector accepted by `validate`, `calculateTemporalResult` succeeds,
its score is `n/10`, and it never exceeds the Base score. -/
theorem temporalResult_spec {s : String} {vr : ValidationResult}
    (h : validate s = .ok vr) :
    ∃ r br : ScoreResult, calculateTemporalResult s = .ok r ∧
      calculateBaseResult s = .ok br ∧
      0 ≤ r.score ∧ r.score ≤ br.score ∧
      ∃ n : ℕ, n ≤ 100 ∧ r.score = (n : ℚ) / 10 := by
  obtain ⟨br, hbr, hbr0, hbr10, nb, hnb, hbscore⟩ := baseResult_spec h
  have hvm := validate_ok_validatedMap h
  obtain ⟨vE, hgetE, hEsrc⟩ := popT_temporal_present vr.metricsMap "E" (by decide)
  obtain ⟨vRL, hgetRL, hRLsrc⟩ := popT_temporal_present vr.metricsMap "RL" (by decide)
  obtain ⟨vRC, hgetRC, hRCsrc⟩ := popT_temporal_present vr.metricsMap "RC" (by decide)
  have hE5 : vE = "X" ∨ vE = "H" ∨ vE = "F" ∨ vE = "P" ∨ vE = "U" := by
    rcases hEsrc with hsome | rfl
    · have hleg := (hvm.2 "E" vE hsome).2
      have ht : allKnownMetricsValues "E" = ["X", "H", "F", "P", "U"] := by
        with_unfolding_all rfl
      rw [ht] at hleg
      simpa using hleg
    · exact Or.inl rfl
  have hRL5 : vRL = "X" ∨ vRL = "U" ∨ vRL = "W" ∨ vRL = "T" ∨ vRL = "O" := by
    rcases hRLsrc with hsome | rfl
    · have hleg := (hvm.2 "RL" vRL hsome).2
      have ht : allKnownMetricsValues "RL" = ["X", "U", "W", "T", "O"] := by
        with_unfolding_all rfl
      rw [ht] at hleg
      simpa using hleg
    · exact Or.inl rfl
  have hRC5 : vRC = "X" ∨ vRC = "C" ∨ vRC = "R" ∨ vRC = "U" := by
    rcases hRCsrc with hsome | rfl
    · have hleg := (hvm.2 "RC" vRC hsome).2
      have ht : allKnownMetricsValues "RC" = ["X", "C", "R", "U"] := by
        with_unfolding_all rfl
      rw [ht] at hleg
      simpa using hleg
    · exact Or.inl rfl
  obtain ⟨pE, hmemE, hokE⟩ := getNum_table_ok (by decide) (by decide)
    (show combinedScoreTable "E" =
      some [("X", 1), ("U", 0.91), ("F", 0.97), ("P", 0.94), ("H", 1)] by
        with_unfolding_all rfl)
    hgetE (by rcases hE5 with rfl | rfl | rfl | rfl | rfl <;> decide)
  obtain ⟨pRL, hmemRL, hokRL⟩ := getNum_table_ok (by decide) (by decide)
    (show combinedScoreTable "RL" =
      some [("X", 1), ("O", 0.95), ("T", 0.96), ("W", 0.97), ("U", 1)] by
        with_unfolding_all rfl)
    hgetRL (by rcases hRL5 with rfl | rfl | rfl | rfl | rfl <;> decide)
  obtain ⟨pRC, hmemRC, hokRC⟩ := getNum_table_ok (by decide) (by decide)
    (show combinedScoreTable "RC" =
      some [("X", 1), ("U", 0.92), ("R", 0.96), ("C", 1)] by with_unfolding_all rfl)
    hgetRC (by rcases hRC5 with rfl | rfl | rfl | rfl <;> decide)
  have hwE : 0 ≤ pE.2 ∧ pE.2 ≤ 1 := by
    rcases show pE = ("X", (1 : ℚ)) ∨ pE = ("U", 0.91) ∨ pE = ("F", 0.97) ∨
        pE = ("P", 0.94) ∨ pE = ("H", 1) by simpa using hmemE with
      rfl | rfl | rfl | rfl | rfl <;> norm_num
  have hwRL : 0 ≤ pRL.2 ∧ pRL.2 ≤ 1 := by
    rcases show pRL = ("X", (1 : ℚ)) ∨ pRL = ("O", 0.95) ∨ pRL = ("T", 0.96) ∨
        pRL = ("W", 0.97) ∨ pRL = ("U", 1) by simpa using hmemRL with
      rfl | rfl | rfl | rfl | rfl <;> norm_num
  have hwRC : 0 ≤ pRC.2 ∧ pRC.2 ≤ 1 := by
    rcases show pRC = ("X", (1 : ℚ)) ∨ pRC = ("U", 0.92) ∨ pRC = ("R", 0.96) ∨
        pRC = ("C", 1) by simpa using hmemRC with rfl | rfl | rfl | rfl <;> norm_num
  unfold calculateTemporalResult
  rw [h]
  simp only [Except.bind, bind]
  rw [hbr]
  simp only [Except.bind, bind]
  rw [hokRC]
  simp only [Except.bind, bind]
  rw [hokE]
  simp only [Except.bind, bind]
  rw [hokRL]
  simp only [Except.bind, bind]
  refine ⟨_, br, rfl, rfl, ?_⟩
  dsimp only
  have hprod0 : 0 ≤ br.score * pRC.2 * pE.2 * pRL.2 :=
    mul_nonneg (mul_nonneg (mul_nonneg hbr0 hwRC.1) hwE.1) hwRL.1
  have hprodle : br.score * pRC.2 * pE.2 * pRL.2 ≤ br.score := by
    calc br.score * pRC.2 * pE.2 * pRL.2
        ≤ br.score * pRC.2 * pE.2 :=
          mul_le_of_le_one_right (mul_nonneg (mul_nonneg hbr0 hwRC.1) hwE.1) hwRL.2
      _ ≤ br.score * pRC.2 := mul_le_of_le_one_right (mul_nonneg hbr0 hwRC.1) hwE.2
      _ ≤ br.score := mul_le_of_le_one_right hbr0 hwRC.2
  have hfix : roundUp br.score = br.score := by
    rw [hbscore]
    have hcast : ((nb : ℚ)) = (((nb : ℤ) : ℚ)) := by push_cast; ring
    rw [hcast]
    exact roundUp_int_div_ten (nb : ℤ)
  have hle : roundUp (br.score * pRC.2 * pE.2 * pRL.2) ≤ br.score := by
    calc roundUp (br.score * pRC.2 * pE.2 * pRL.2) ≤ roundUp br.score :=
          roundUp_mono hprodle
      _ = br.score := hfix
  have hprod10 : br.score * pRC.2 * pE.2 * pRL.2 ≤ 10 := le_trans hprodle hbr10
  obtain ⟨n, hn, he⟩ := roundUp_mem _ hprod0 hprod10
  obtain ⟨h0, -⟩ := roundUp_nonneg_le_ten _ hprod0 hprod10
  exact ⟨h0, hle, n, hn, he⟩

/-! ## Environmental default population -/

/-- A step of `populateEnvironmentalMetricDefaults` on a metric that is present
with a non-`X` value leaves the map unchanged. -/
theorem envStep_skip {m : MetricsMap} {r v : String}
    (hv : mapGet? m r = some v) (hx : v ≠ "X") :
    envDefaultStep m r = .ok m := by
  have hhas : mapHas m r = true := by unfold mapHas; rw [hv]; rfl
  simp only [envDefaultStep]
  rw [if_pos hhas, if_neg (by rw [hv]; simp [hx])]

/-- A step of `populateEnvironmentalMetricDefaults` on a Modified metric whose
base counterpart is present: it succeeds, resolves the metric's value (its own
non-`X` value, else the counterpart's), and leaves every other key unchanged. -/
theorem envStep_mod {m : MetricsMap} {mm bm bv : String}
    (hmod : modifiedMetricsMap mm = some bm) (hne : bm ≠ mm)
    (hbv : mapGet? m bm = some bv) :
    ∃ m', envDefaultStep m mm = .ok m' ∧
      mapGet? m' mm = some (match mapGet? m mm with
        | some v => if v = "X" then bv else v
        | none => bv) ∧
      ∀ k, k ≠ mm → mapGet? m' k = mapGet? m k := by
  cases hg : mapGet? m mm with
  | none =>
    have hhas : ¬ mapHas m mm = true := by unfold mapHas; rw [hg]; simp
    simp only [envDefaultStep]
    rw [if_neg hhas, if_pos (mapGet?_set_self m mm "X"), hmod]
    dsimp only
    have hb1 : mapGet? (mapSet m mm "X") bm = some bv := by
      rw [mapGet?_set_ne m mm "X" bm hne]
      exact hbv
    have hhas1 : mapHas (mapSet m mm "X") bm = true := by
      unfold mapHas
      rw [hb1]
      rfl
    rw [if_pos hhas1, hb1]
    refine ⟨_, rfl, ?_, ?_⟩
    · rw [mapGet?_set_self]
      rfl
    · intro k hk
      rw [mapGet?_set_ne _ mm _ k hk, mapGet?_set_ne m mm "X" k hk]
  | some v =>
    have hhas : mapHas m mm = true := by unfold mapHas; rw [hg]; rfl
    simp only [envDefaultStep]
    rw [if_pos hhas]
    by_cases hx : v = "X"
    · subst hx
      rw [if_pos hg, hmod]
      dsimp only
      have hhasb : mapHas m bm = true := by unfold mapHas; rw [hbv]; rfl
      rw [if_pos hhasb, hbv]
      refine ⟨_, rfl, ?_, ?_⟩
      · rw [mapGet?_set_self]
        rfl
      · intro k hk
        rw [mapGet?_set_ne m mm _ k hk]
    · rw [if_neg (by rw [hg]; simp [hx])]
      refine ⟨m, rfl, ?_, fun k _ => rfl⟩
      rw [hg, if_neg hx]

/-- Helper: a key with no Modified-counterpart entry is distinct from one that
has one. -/
theorem ne_of_modNone {k c b : String} (hk : modifiedMetricsMap k = none)
    (hc : modifiedMetricsMap c = some b) : k ≠ c := by
  intro he
  rw [he, hc] at hk
  cases hk

/-- Weaker reading of `ModResolved`: the resolved value is the metric's own or
the base counterpart's. -/
theorem ModResolved.origin {m m' : MetricsMap} {mm bm : String}
    (h : ModResolved m m' mm bm) :
    ∃ w, mapGet? m' mm = some w ∧ w ≠ "X" ∧
      (mapGet? m mm = some w ∨ mapGet? m bm = some w) := by
  obtain ⟨w, bv, hb, hg, hx, he⟩ := h
  refine ⟨w, hg, hx, ?_⟩
  cases ho : mapGet? m mm with
  | none =>
    rw [ho] at he
    dsimp only at he
    subst he
    exact Or.inr hb
  | some v =>
    rw [ho] at he
    dsimp only at he
    by_cases hv : v = "X"
    · rw [if_pos hv] at he
      subst he
      exact Or.inr hb
    · rw [if_neg hv] at he
      subst he
      exact Or.inl rfl

/-- Full characterization of `populateEnvironmentalMetricDefaults` on a map
whose `CR`/`IR`/`AR` are present and non-`X` and whose base metrics are present
and non-`X`: it succeeds, non-Modified keys are untouched, and every Modified
metric resolves. -/
theorem popEnv_spec {m : MetricsMap}
    (hreq : ∀ r, r = "AR" ∨ r = "CR" ∨ r = "IR" → ∃ v, mapGet? m r = some v ∧ v ≠ "X")
    (hbase : ∀ b ∈ baseMetrics, ∃ v, mapGet? m b = some v ∧ v ≠ "X") :
    ∃ m', populateEnvironmentalMetricDefaults m = .ok m' ∧
      (∀ k, modifiedMetricsMap k = none → mapGet? m' k = mapGet? m k) ∧
      ModResolved m m' "MAV" "AV" ∧ ModResolved m m' "MAC" "AC" ∧
      ModResolved m m' "MPR" "PR" ∧ ModResolved m m' "MUI" "UI" ∧
      ModResolved m m' "MS" "S" ∧ ModResolved m m' "MC" "C" ∧
      ModResolved m m' "MI" "I" ∧ ModResolved m m' "MA" "A" := by
  obtain ⟨vAR, hAR, hARx⟩ := hreq "AR" (Or.inl rfl)
  obtain ⟨vCR, hCR, hCRx⟩ := hreq "CR" (Or.inr (Or.inl rfl))
  obtain ⟨vIR, hIR, hIRx⟩ := hreq "IR" (Or.inr (Or.inr rfl))
  obtain ⟨bAV, hbAV, hbAVx⟩ := hbase "AV" (by decide)
  obtain ⟨bAC, hbAC, hbACx⟩ := hbase "AC" (by decide)
  obtain ⟨bPR, hbPR, hbPRx⟩ := hbase "PR" (by decide)
  obtain ⟨bUI, hbUI, hbUIx⟩ := hbase "UI" (by decide)
  obtain ⟨bS, hbS, hbSx⟩ := hbase "S" (by decide)
  obtain ⟨bC, hbC, hbCx⟩ := hbase "C" (by decide)
  obtain ⟨bI, hbI, hbIx⟩ := hbase "I" (by decide)
  obtain ⟨bA, hbA, hbAx⟩ := hbase "A" (by decide)
  have s1 : envDefaultStep m "AR" = .ok m := envStep_skip hAR hARx
  have s2 : envDefaultStep m "CR" = .ok m := envStep_skip hCR hCRx
  have s3 : envDefaultStep m "IR" = .ok m := envStep_skip hIR hIRx
  obtain ⟨m4, s4, g4, p4⟩ := envStep_mod
    (show modifiedMetricsMap "MAV" = some "AV" by with_unfolding_all rfl) (by decide) hbAV
  obtain ⟨m5, s5, g5, p5⟩ := envStep_mod
    (show modifiedMetricsMap "MAC" = some "AC" by with_unfolding_all rfl) (by decide)
    (show mapGet? m4 "AC" = some bAC by rw [p4 "AC" (by decide)]; exact hbAC)
  obtain ⟨m6, s6, g6, p6⟩ := envStep_mod
    (show modifiedMetricsMap "MPR" = some "PR" by with_unfolding_all rfl) (by decide)
    (show mapGet? m5 "PR" = some bPR by
      rw [p5 "PR" (by decide), p4 "PR" (by decide)]; exact hbPR)
  obtain ⟨m7, s7, g7, p7⟩ := envStep_mod
    (show modifiedMetricsMap "MUI" = some "UI" by with_unfolding_all rfl) (by decide)
    (show mapGet? m6 "UI" = some bUI by
      rw [p6 "UI" (by decide), p5 "UI" (by decide), p4 "UI" (by decide)]; exact hbUI)
  obtain ⟨m8, s8, g8, p8⟩ := envStep_mod
    (show modifiedMetricsMap "MS" = some "S" by with_unfolding_all rfl) (by decide)
    (show mapGet? m7 "S" = some bS by
      rw [p7 "S" (by decide), p6 "S" (by decide), p5 "S" (by decide), p4 "S" (by decide)]
      exact hbS)
  obtain ⟨m9, s9, g9, p9⟩ := envStep_mod
    (show modifiedMetricsMap "MC" = some "C" by with_unfolding_all rfl) (by decide)
    (show mapGet? m8 "C" = some bC by
      rw [p8 "C" (by decide), p7 "C" (by decide), p6 "C" (by decide), p5 "C" (by decide),
        p4 "C" (by decide)]
      exact hbC)
  obtain ⟨m10, s10, g10, p10⟩ := envStep_mod
    (show modifiedMetricsMap "MI" = some "I" by with_unfolding_all rfl) (by decide)
    (show mapGet? m9 "I" = some bI by
      rw [p9 "I" (by decide), p8 "I" (by decide), p7 "I" (by decide), p6 "I" (by decide),
        p5 "I" (by decide), p4 "I" (by decide)]
      exact hbI)
  obtain ⟨m11, s11, g11, p11⟩ := envStep_mod
    (show modifiedMetricsMap "MA" = some "A" by with_unfolding_all rfl) (by decide)
    (show mapGet? m10 "A" = some bA by
      rw [p10 "A" (by decide), p9 "A" (by decide), p8 "A" (by decide), p7 "A" (by decide),
        p6 "A" (by decide), p5 "A" (by decide), p4 "A" (by decide)]
      exact hbA)
  refine ⟨m11, ?_, ?_, ?_⟩
  · unfold populateEnvironmentalMetricDefaults environmentalMetrics
    simp only [List.foldlM_cons, List.foldlM_nil]
    rw [s1]
    simp only [Except.bind, bind]
    rw [s2]
    simp only [Except.bind, bind]
    rw [s3]
    simp only [Except.bind, bind]
    rw [s4]
    simp only [Except.bind, bind]
    rw [s5]
    simp only [Except.bind, bind]
    rw [s6]
    simp only [Except.bind, bind]
    rw [s7]
    simp only [Except.bind, bind]
    rw [s8]
    simp only [Except.bind, bind]
    rw [s9]
    simp only [Except.bind, bind]
    rw [s10]
    simp only [Except.bind, bind]
    rw [s11]
    simp only [Except.bind, bind]
    rfl
  · intro k hk
    rw [p11 k (ne_of_modNone hk (by with_unfolding_all rfl)),
      p10 k (ne_of_modNone hk (by with_unfolding_all rfl)),
      p9 k (ne_of_modNone hk (by with_unfolding_all rfl)),
      p8 k (ne_of_modNone hk (by with_unfolding_all rfl)),
      p7 k (ne_of_modNone hk (by with_unfolding_all rfl)),
      p6 k (ne_of_modNone hk (by with_unfolding_all rfl)),
      p5 k (ne_of_modNone hk (by with_unfolding_all rfl)),
      p4 k (ne_of_modNone hk (by with_unfolding_all rfl))]
  · have hMAV : mapGet? m11 "MAV" = mapGet? m4 "MAV" := by
      rw [p11 "MAV" (by decide), p10 "MAV" (by decide), p9 "MAV" (by decide),
        p8 "MAV" (by decide), p7 "MAV" (by decide), p6 "MAV" (by decide),
        p5 "MAV" (by decide)]
    have hMAC : mapGet? m11 "MAC" = mapGet? m5 "MAC" := by
      rw [p11 "MAC" (by decide), p10 "MAC" (by decide), p9 "MAC" (by decide),
        p8 "MAC" (by decide), p7 "MAC" (by decide), p6 "MAC" (by decide)]
    have hMPR : mapGet? m11 "MPR" = mapGet? m6 "MPR" := by
      rw [p11 "MPR" (by decide), p10 "MPR" (by decide), p9 "MPR" (by decide),
        p8 "MPR" (by decide), p7 "MPR" (by decide)]
    have hMUI : mapGet? m11 "MUI" = mapGet? m7 "MUI" := by
      rw [p11 "MUI" (by decide), p10 "MUI" (by decide), p9 "MUI" (by decide),
        p8 "MUI" (by decide)]
    have hMS : mapGet? m11 "MS" = mapGet? m8 "MS" := by
      rw [p11 "MS" (by decide), p10 "MS" (by decide), p9 "MS" (by decide)]
    have hMC : mapGet? m11 "MC" = mapGet? m9 "MC" := by
      rw [p11 "MC" (by decide), p10 "MC" (by decide)]
    have hMI : mapGet? m11 "MI" = mapGet? m10 "MI" := by
      rw [p11 "MI" (by decide)]
    have resolve : ∀ mm bm bval : String, ∀ mi : MetricsMap,
        mapGet? m bm = some bval → bval ≠ "X" →
        mapGet? mi mm = some (match mapGet? m mm with
          | some v => if v = "X" then bval else v
          | none => bval) →
        ModResolved m mi mm bm := by
      intro mm bm bval mi hb hbx hg
      refine ⟨_, bval, hb, hg, ?_, rfl⟩
      cases horig : mapGet? m mm with
      | none =>
        dsimp only
        exact hbx
      | some v =>
        dsimp only
        by_cases hvx : v = "X"
        · rw [if_pos hvx]
          exact hbx
        · rw [if_neg hvx]
          exact hvx
    refine ⟨resolve _ _ _ _ hbAV hbAVx (by rw [hMAV]; exact g4),
      resolve _ _ _ _ hbAC hbACx (by
        rw [hMAC, g5, p4 "MAC" (by decide)]),
      resolve _ _ _ _ hbPR hbPRx (by
        rw [hMPR, g6, p5 "MPR" (by decide), p4 "MPR" (by decide)]),
      resolve _ _ _ _ hbUI hbUIx (by
        rw [hMUI, g7, p6 "MUI" (by decide), p5 "MUI" (by decide), p4 "MUI" (by decide)]),
      resolve _ _ _ _ hbS hbSx (by
        rw [hMS, g8, p7 "MS" (by decide), p6 "MS" (by decide), p5 "MS" (by decide),
          p4 "MS" (by decide)]),
      resolve _ _ _ _ hbC hbCx (by
        rw [hMC, g9, p8 "MC" (by decide), p7 "MC" (by decide), p6 "MC" (by decide),
          p5 "MC" (by decide), p4 "MC" (by decide)]),
      resolve _ _ _ _ hbI hbIx (by
        rw [hMI, g10, p9 "MI" (by decide), p8 "MI" (by decide), p7 "MI" (by decide),
          p6 "MI" (by decide), p5 "MI" (by decide), p4 "MI" (by decide)]),
      resolve _ _ _ _ hbA hbAx (by
        rw [g11, p10 "MA" (by decide), p9 "MA" (by decide), p8 "MA" (by decide),
          p7 "MA" (by decide), p6 "MA" (by decide), p5 "MA" (by decide),
          p4 "MA" (by decide)])⟩

/-- Where a value in the temporal-populated map may come from: the original
map, or the `"X"` default of one of `E`/`RL`/`RC`. -/
theorem popT_source {m : MetricsMap} {k v : String}
    (h : mapGet? (populateTemporalMetricDefaults m) k = some v) :
    mapGet? m k = some v ∨ ((k = "E" ∨ k = "RL" ∨ k = "RC") ∧ v = "X") := by
  have hstep : ∀ (m' : MetricsMap) (c : String),
      mapGet? (if mapHas m' c then m' else mapSet m' c "X") k = some v →
      mapGet? m' k = some v ∨ (k = c ∧ v = "X") := by
    intro m' c hc
    by_cases hhas : mapHas m' c
    · rw [if_pos hhas] at hc
      exact Or.inl hc
    · rw [if_neg hhas] at hc
      by_cases hkc : k = c
      · subst hkc
        rw [mapGet?_set_self] at hc
        injection hc with hc
        exact Or.inr ⟨rfl, hc.symm⟩
      · rw [mapGet?_set_ne m' c "X" k hkc] at hc
        exact Or.inl hc
  have hsteps : populateTemporalMetricDefaults m =
      (fun acc => if mapHas acc "RC" then acc else mapSet acc "RC" "X")
      ((fun acc => if mapHas acc "RL" then acc else mapSet acc "RL" "X")
      ((fun acc => if mapHas acc "E" then acc else mapSet acc "E" "X") m)) := by
    unfold populateTemporalMetricDefaults temporalMetrics
    simp only [List.foldl]
  rw [hsteps] at h
  rcases hstep _ "RC" h with h2 | ⟨rfl, rfl⟩
  · rcases hstep _ "RL" h2 with h3 | ⟨rfl, rfl⟩
    · rcases hstep _ "E" h3 with h4 | ⟨rfl, rfl⟩
      · exact Or.inl h4
      · exact Or.inr ⟨Or.inl rfl, rfl⟩
    · exact Or.inr ⟨Or.inr (Or.inl rfl), rfl⟩
  · exact Or.inr ⟨Or.inr (Or.inr rfl), rfl⟩

/-- Every base metric of a validated map holds a non-`X` value (no base legal
set contains `X`). -/
theorem validated_base_nonX {s : String} {vr : ValidationResult}
    (h : validate s = .ok vr) :
    ∀ b ∈ baseMetrics, ∃ v, mapGet? vr.metricsMap b = some v ∧ v ≠ "X" := by
  have hvm := validate_ok_validatedMap h
  intro b hb
  obtain ⟨v, hv, hleg⟩ := hvm.1 b hb
  refine ⟨v, hv, ?_⟩
  intro hx
  subst hx
  rcases show b = "AV" ∨ b = "AC" ∨ b = "PR" ∨ b = "UI" ∨ b = "S" ∨ b = "C" ∨
      b = "I" ∨ b = "A" by simpa [baseMetrics] using hb with
    rfl | rfl | rfl | rfl | rfl | rfl | rfl | rfl
  · rw [show allKnownMetricsValues "AV" = ["N", "A", "L", "P"] from by
      with_unfolding_all rfl] at hleg
    simp at hleg
  · rw [show allKnownMetricsValues "AC" = ["L", "H"] from by
      with_unfolding_all rfl] at hleg
    simp at hleg
  · rw [show allKnownMetricsValues "PR" = ["N", "L", "H"] from by
      with_unfolding_all rfl] at hleg
    simp at hleg
  · rw [show allKnownMetricsValues "UI" = ["N", "R"] from by
      with_unfolding_all rfl] at hleg
    simp at hleg
  · rw [show allKnownMetricsValues "S" = ["U", "C"] from by
      with_unfolding_all rfl] at hleg
    simp at hleg
  · rw [show allKnownMetricsValues "C" = ["N", "L", "H"] from by
      with_unfolding_all rfl] at hleg
    simp at hleg
  · rw [show allKnownMetricsValues "I" = ["N", "L", "H"] from by
      with_unfolding_all rfl] at hleg
    simp at hleg
  · rw [show allKnownMetricsValues "A" = ["N", "L", "H"] from by
      with_unfolding_all rfl] at hleg
    simp at hleg

/-! ## The Environmental score when `CR`/`IR`/`AR` are present and non-`X` -/

/-- On any vector accepted by `validate` whose `CR`, `IR` and `AR` are present
with non-`X` values, `calculateEnvironmentalResult` succeeds and its score is
`n/10` with `n ≤ 100`. -/
theorem envResult_spec {s : String} {vr : ValidationResult}
    (h : validate s = .ok vr)
    (hreq : ∀ r, r = "AR" ∨ r = "CR" ∨ r = "IR" →
      ∃ v, mapGet? vr.metricsMap r = some v ∧ v ≠ "X") :
    ∃ r : ScoreResult, calculateEnvironmentalResult s = .ok r ∧
      0 ≤ r.score ∧ r.score ≤ 10 ∧ ∃ n : ℕ, n ≤ 100 ∧ r.score = (n : ℚ) / 10 := by
  have hvm := validate_ok_validatedMap h
  obtain ⟨-, -, -, -, hvers⟩ := validate_ok_spec h
  have hbase : ∀ b ∈ baseMetrics, ∃ v, mapGet? vr.metricsMap b = some v ∧ v ≠ "X" :=
    validated_base_nonX h
  have hreqT : ∀ r, r = "AR" ∨ r = "CR" ∨ r = "IR" →
      ∃ v, mapGet? (populateTemporalMetricDefaults vr.metricsMap) r = some v ∧ v ≠ "X" := by
    intro r hr
    obtain ⟨v, hv, hx⟩ := hreq r hr
    exact ⟨v, popT_preserves hv, hx⟩
  have hbaseT : ∀ b ∈ baseMetrics,
      ∃ v, mapGet? (populateTemporalMetricDefaults vr.metricsMap) b = some v ∧ v ≠ "X" := by
    intro b hb
    obtain ⟨v, hv, hx⟩ := hbase b hb
    exact ⟨v, popT_preserves hv, hx⟩
  obtain ⟨mE, hpop, hpres, hMAV, hMAC, hMPR, hMUI, hMS, hMC, hMI, hMA⟩ :=
    popEnv_spec hreqT hbaseT
  have hv2 : ∀ k w, mapGet? (populateTemporalMetricDefaults vr.metricsMap) k = some w →
      ¬ (k = "E" ∨ k = "RL" ∨ k = "RC") → w ∈ allKnownMetricsValues k := by
    intro k w hw hk
    rcases popT_source hw with h' | ⟨hk', -⟩
    · exact (hvm.2 k w h').2
    · exact absurd hk' hk
  obtain ⟨wMAV, hgMAV, hxMAV, hoMAV⟩ := hMAV.origin
  obtain ⟨wMAC, hgMAC, hxMAC, hoMAC⟩ := hMAC.origin
  obtain ⟨wMPR, hgMPR, hxMPR, hoMPR⟩ := hMPR.origin
  obtain ⟨wMUI, hgMUI, hxMUI, hoMUI⟩ := hMUI.origin
  obtain ⟨wMS, hgMS, hxMS, hoMS⟩ := hMS.origin
  obtain ⟨wMC, hgMC, hxMC, hoMC⟩ := hMC.origin
  obtain ⟨wMI, hgMI, hxMI, hoMI⟩ := hMI.origin
  obtain ⟨wMA, hgMA, hxMA, hoMA⟩ := hMA.origin
  have hMAVl : wMAV = "N" ∨ wMAV = "A" ∨ wMAV = "L" ∨ wMAV = "P" := by
    rcases hoMAV with ho | ho
    · have hw := hv2 _ _ ho (by decide)
      rw [show allKnownMetricsValues "MAV" = ["X", "N", "A", "L", "P"] from by
        with_unfolding_all rfl] at hw
      rcases show wMAV = "X" ∨ wMAV = "N" ∨ wMAV = "A" ∨ wMAV = "L" ∨ wMAV = "P" by
        simpa using hw with rfl | hr
      · exact absurd rfl hxMAV
      · exact hr
    · have hw := hv2 _ _ ho (by decide)
      rw [show allKnownMetricsValues "AV" = ["N", "A", "L", "P"] from by
        with_unfolding_all rfl] at hw
      simpa using hw
  have hMACl : wMAC = "L" ∨ wMAC = "H" := by
    rcases hoMAC with ho | ho
    · have hw := hv2 _ _ ho (by decide)
      rw [show allKnownMetricsValues "MAC" = ["X", "L", "H"] from by
        with_unfolding_all rfl] at hw
      rcases show wMAC = "X" ∨ wMAC = "L" ∨ wMAC = "H" by simpa using hw with rfl | hr
      · exact absurd rfl hxMAC
      · exact hr
    · have hw := hv2 _ _ ho (by decide)
      rw [show allKnownMetricsValues "AC" = ["L", "H"] from by
        with_unfolding_all rfl] at hw
      simpa using hw
  have hMPRl : wMPR = "N" ∨ wMPR = "L" ∨ wMPR = "H" := by
    rcases hoMPR with ho | ho
    · have hw := hv2 _ _ ho (by decide)
      rw [show allKnownMetricsValues "MPR" = ["X", "N", "L", "H"] from by
        with_unfolding_all rfl] at hw
      rcases show wMPR = "X" ∨ wMPR = "N" ∨ wMPR = "L" ∨ wMPR = "H" by
        simpa using hw with rfl | hr
      · exact absurd rfl hxMPR
      · exact hr
    · have hw := hv2 _ _ ho (by decide)
      rw [show allKnownMetricsValues "PR" = ["N", "L", "H"] from by
        with_unfolding_all rfl] at hw
      simpa using hw
  have hMUIl : wMUI = "N" ∨ wMUI = "R" := by
    rcases hoMUI with ho | ho
    · have hw := hv2 _ _ ho (by decide)
      rw [show allKnownMetricsValues "MUI" = ["X", "N", "R"] from by
        with_unfolding_all rfl] at hw
      rcases show wMUI = "X" ∨ wMUI = "N" ∨ wMUI = "R" by simpa using hw with rfl | hr
      · exact absurd rfl hxMUI
      · exact hr
    · have hw := hv2 _ _ ho (by decide)
      rw [show allKnownMetricsValues "UI" = ["N", "R"] from by
        with_unfolding_all rfl] at hw
      simpa using hw
  have hMSl : wMS = "U" ∨ wMS = "C" := by
    rcases hoMS with ho | ho
    · have hw := hv2 _ _ ho (by decide)
      rw [show allKnownMetricsValues "MS" = ["X", "U", "C"] from by
        with_unfolding_all rfl] at hw
      rcases show wMS = "X" ∨ wMS = "U" ∨ wMS = "C" by simpa using hw with rfl | hr
      · exact absurd rfl hxMS
      · exact hr
    · have hw := hv2 _ _ ho (by decide)
      rw [show allKnownMetricsValues "S" = ["U", "C"] from by
        with_unfolding_all rfl] at hw
      simpa using hw
  have hMCl : wMC = "N" ∨ wMC = "L" ∨ wMC = "H" := by
    rcases hoMC with ho | ho
    · have hw := hv2 _ _ ho (by decide)
      rw [show allKnownMetricsValues "MC" = ["X", "N", "L", "H"] from by
        with_unfolding_all rfl] at hw
      rcases show wMC = "X" ∨ wMC = "N" ∨ wMC = "L" ∨ wMC = "H" by
        simpa using hw with rfl | hr
      · exact absurd rfl hxMC
      · exact hr
    · have hw := hv2 _ _ ho (by decide)
      rw [show allKnownMetricsValues "C" = ["N", "L", "H"] from by
        with_unfolding_all rfl] at hw
      simpa using hw
  have hMIl : wMI = "N" ∨ wMI = "L" ∨ wMI = "H" := by
    rcases hoMI with ho | ho
    · have hw := hv2 _ _ ho (by decide)
      rw [show allKnownMetricsValues "MI" = ["X", "N", "L", "H"] from by
        with_unfolding_all rfl] at hw
      rcases show wMI = "X" ∨ wMI = "N" ∨ wMI = "L" ∨ wMI = "H" by
        simpa using hw with rfl | hr
      · exact absurd rfl hxMI
      · exact hr
    · have hw := hv2 _ _ ho (by decide)
      rw [show allKnownMetricsValues "I" = ["N", "L", "H"] from by
        with_unfolding_all rfl] at hw
      simpa using hw
  have hMAl : wMA = "N" ∨ wMA = "L" ∨ wMA = "H" := by
    rcases hoMA with ho | ho
    · have hw := hv2 _ _ ho (by decide)
      rw [show allKnownMetricsValues "MA" = ["X", "N", "L", "H"] from by
        with_unfolding_all rfl] at hw
      rcases show wMA = "X" ∨ wMA = "N" ∨ wMA = "L" ∨ wMA = "H" by
        simpa using hw with rfl | hr
      · exact absurd rfl hxMA
      · exact hr
    · have hw := hv2 _ _ ho (by decide)
      rw [show allKnownMetricsValues "A" = ["N", "L", "H"] from by
        with_unfolding_all rfl] at hw
      simpa using hw
  obtain ⟨vAR, hAR, -⟩ := hreq "AR" (Or.inl rfl)
  obtain ⟨vCR, hCR, -⟩ := hreq "CR" (Or.inr (Or.inl rfl))
  obtain ⟨vIR, hIR, -⟩ := hreq "IR" (Or.inr (Or.inr rfl))
  have hARl : vAR ∈ allKnownMetricsValues "AR" := (hvm.2 "AR" vAR hAR).2
  have hCRl : vCR ∈ allKnownMetricsValues "CR" := (hvm.2 "CR" vCR hCR).2
  have hIRl : vIR ∈ allKnownMetricsValues "IR" := (hvm.2 "IR" vIR hIR).2
  have hAR4 : vAR = "X" ∨ vAR = "H" ∨ vAR = "M" ∨ vAR = "L" := by
    rw [show allKnownMetricsValues "AR" = ["X", "H", "M", "L"] from by
      with_unfolding_all rfl] at hARl
    simpa using hARl
  have hCR4 : vCR = "X" ∨ vCR = "H" ∨ vCR = "M" ∨ vCR = "L" := by
    rw [show allKnownMetricsValues "CR" = ["X", "H", "M", "L"] from by
      with_unfolding_all rfl] at hCRl
    simpa using hCRl
  have hIR4 : vIR = "X" ∨ vIR = "H" ∨ vIR = "M" ∨ vIR = "L" := by
    rw [show allKnownMetricsValues "IR" = ["X", "H", "M", "L"] from by
      with_unfolding_all rfl] at hIRl
    simpa using hIRl
  have hgAR : mapGet? mE "AR" = some vAR := by
    rw [hpres "AR" (by with_unfolding_all rfl)]
    exact popT_preserves hAR
  have hgCR : mapGet? mE "CR" = some vCR := by
    rw [hpres "CR" (by with_unfolding_all rfl)]
    exact popT_preserves hCR
  have hgIR : mapGet? mE "IR" = some vIR := by
    rw [hpres "IR" (by with_unfolding_all rfl)]
    exact popT_preserves hIR
  obtain ⟨vE, hgetE, hEsrc⟩ := popT_temporal_present vr.metricsMap "E" (by decide)
  obtain ⟨vRL, hgetRL, hRLsrc⟩ := popT_temporal_present vr.metricsMap "RL" (by decide)
  obtain ⟨vRC, hgetRC, hRCsrc⟩ := popT_temporal_present vr.metricsMap "RC" (by decide)
  have hgE : mapGet? mE "E" = some vE := by
    rw [hpres "E" (by with_unfolding_all rfl)]
    exact hgetE
  have hgRL : mapGet? mE "RL" = some vRL := by
    rw [hpres "RL" (by with_unfolding_all rfl)]
    exact hgetRL
  have hgRC : mapGet? mE "RC" = some vRC := by
    rw [hpres "RC" (by with_unfolding_all rfl)]
    exact hgetRC
  have hE5 : vE = "X" ∨ vE = "H" ∨ vE = "F" ∨ vE = "P" ∨ vE = "U" := by
    rcases hEsrc with hsome | rfl
    · have hleg := (hvm.2 "E" vE hsome).2
      rw [show allKnownMetricsValues "E" = ["X", "H", "F", "P", "U"] from by
        with_unfolding_all rfl] at hleg
      simpa using hleg
    · exact Or.inl rfl
  have hRL5 : vRL = "X" ∨ vRL = "U" ∨ vRL = "W" ∨ vRL = "T" ∨ vRL = "O" := by
    rcases hRLsrc with hsome | rfl
    · have hleg := (hvm.2 "RL" vRL hsome).2
      rw [show allKnownMetricsValues "RL" = ["X", "U", "W", "T", "O"] from by
        with_unfolding_all rfl] at hleg
      simpa using hleg
    · exact Or.inl rfl
  have hRC5 : vRC = "X" ∨ vRC = "C" ∨ vRC = "R" ∨ vRC = "U" := by
    rcases hRCsrc with hsome | rfl
    · have hleg := (hvm.2 "RC" vRC hsome).2
      rw [show allKnownMetricsValues "RC" = ["X", "C", "R", "U"] from by
        with_unfolding_all rfl] at hleg
      simpa using hleg
    · exact Or.inl rfl
  obtain ⟨pCR, hmemCR, hokCR⟩ := getNum_table_ok (by decide) (by decide)
    (show combinedScoreTable "CR" = some [("M", 1), ("L", 0.5), ("H", 1.5), ("X", 1)]
      by with_unfolding_all rfl)
    hgCR (by rcases hCR4 with rfl | rfl | rfl | rfl <;> decide)
  obtain ⟨pIR, hmemIR, hokIR⟩ := getNum_table_ok (by decide) (by decide)
    (show combinedScoreTable "IR" = some [("M", 1), ("L", 0.5), ("H", 1.5), ("X", 1)]
      by with_unfolding_all rfl)
    hgIR (by rcases hIR4 with rfl | rfl | rfl | rfl <;> decide)
  obtain ⟨pAR, hmemAR, hokAR⟩ := getNum_table_ok (by decide) (by decide)
    (show combinedScoreTable "AR" = some [("M", 1), ("L", 0.5), ("H", 1.5), ("X", 1)]
      by with_unfolding_all rfl)
    hgAR (by rcases hAR4 with rfl | rfl | rfl | rfl <;> decide)
  obtain ⟨pMC, hmemMC, hokMC⟩ := getNum_table_ok (by decide) (by decide)
    (show combinedScoreTable "MC" = some [("N", 0), ("L", 0.22), ("H", 0.56)]
      by with_unfolding_all rfl)
    hgMC (by rcases hMCl with rfl | rfl | rfl <;> decide)
  obtain ⟨pMI, hmemMI, hokMI⟩ := getNum_table_ok (by decide) (by decide)
    (show combinedScoreTable "MI" = some [("N", 0), ("L", 0.22), ("H", 0.56)]
      by with_unfolding_all rfl)
    hgMI (by rcases hMIl with rfl | rfl | rfl <;> decide)
  obtain ⟨pMA, hmemMA, hokMA⟩ := getNum_table_ok (by decide) (by decide)
    (show combinedScoreTable "MA" = some [("N", 0), ("L", 0.22), ("H", 0.56)]
      by with_unfolding_all rfl)
    hgMA (by rcases hMAl with rfl | rfl | rfl <;> decide)
  obtain ⟨pMAV, hmemMAV, hokMAV⟩ := getNum_table_ok (by decide) (by decide)
    (show combinedScoreTable "MAV" =
      some [("N", 0.85), ("A", 0.62), ("L", 0.55), ("P", 0.2)] by with_unfolding_all rfl)
    hgMAV (by rcases hMAVl with rfl | rfl | rfl | rfl <;> decide)
  obtain ⟨pMAC, hmemMAC, hokMAC⟩ := getNum_table_ok (by decide) (by decide)
    (show combinedScoreTable "MAC" = some [("L", 0.77), ("H", 0.44)]
      by with_unfolding_all rfl)
    hgMAC (by rcases hMACl with rfl | rfl <;> decide)
  obtain ⟨pMUI, hmemMUI, hokMUI⟩ := getNum_table_ok (by decide) (by decide)
    (show combinedScoreTable "MUI" = some [("N", 0.85), ("R", 0.62)]
      by with_unfolding_all rfl)
    hgMUI (by rcases hMUIl with rfl | rfl <;> decide)
  obtain ⟨wPRq, hokMPR, hwMPR0, -⟩ := getNum_MPR_ok hgMPR hgMS hMPRl hMSl
  obtain ⟨pE, hmemE, hokE⟩ := getNum_table_ok (by decide) (by decide)
    (show combinedScoreTable "E" =
      some [("X", 1), ("U", 0.91), ("F", 0.97), ("P", 0.94), ("H", 1)] by
        with_unfolding_all rfl)
    hgE (by rcases hE5 with rfl | rfl | rfl | rfl | rfl <;> decide)
  obtain ⟨pRL, hmemRL, hokRL⟩ := getNum_table_ok (by decide) (by decide)
    (show combinedScoreTable "RL" =
      some [("X", 1), ("O", 0.95), ("T", 0.96), ("W", 0.97), ("U", 1)] by
        with_unfolding_all rfl)
    hgRL (by rcases hRL5 with rfl | rfl | rfl | rfl | rfl <;> decide)
  obtain ⟨pRC, hmemRC, hokRC⟩ := getNum_table_ok (by decide) (by decide)
    (show combinedScoreTable "RC" =
      some [("X", 1), ("U", 0.92), ("R", 0.96), ("C", 1)] by with_unfolding_all rfl)
    hgRC (by rcases hRC5 with rfl | rfl | rfl | rfl <;> decide)
  have hwE : 0 ≤ pE.2 ∧ pE.2 ≤ 1 := by
    rcases show pE = ("X", (1 : ℚ)) ∨ pE = ("U", 0.91) ∨ pE = ("F", 0.97) ∨
        pE = ("P", 0.94) ∨ pE = ("H", 1) by simpa using hmemE with
      rfl | rfl | rfl | rfl | rfl <;> norm_num
  have hwRL : 0 ≤ pRL.2 ∧ pRL.2 ≤ 1 := by
    rcases show pRL = ("X", (1 : ℚ)) ∨ pRL = ("O", 0.95) ∨ pRL = ("T", 0.96) ∨
        pRL = ("W", 0.97) ∨ pRL = ("U", 1) by simpa using hmemRL with
      rfl | rfl | rfl | rfl | rfl <;> norm_num
  have hwRC : 0 ≤ pRC.2 ∧ pRC.2 ≤ 1 := by
    rcases show pRC = ("X", (1 : ℚ)) ∨ pRC = ("U", 0.92) ∨ pRC = ("R", 0.96) ∨
        pRC = ("C", 1) by simpa using hmemRC with rfl | rfl | rfl | rfl <;> norm_num
  have hwMAV : 0 ≤ pMAV.2 := by
    rcases show pMAV = ("N", (0.85 : ℚ)) ∨ pMAV = ("A", 0.62) ∨ pMAV = ("L", 0.55) ∨
        pMAV = ("P", 0.2) by simpa using hmemMAV with rfl | rfl | rfl | rfl <;> norm_num
  have hwMAC : 0 ≤ pMAC.2 := by
    rcases show pMAC = ("L", (0.77 : ℚ)) ∨ pMAC = ("H", 0.44) by
      simpa using hmemMAC with rfl | rfl <;> norm_num
  have hwMUI : 0 ≤ pMUI.2 := by
    rcases show pMUI = ("N", (0.85 : ℚ)) ∨ pMUI = ("R", 0.62) by
      simpa using hmemMUI with rfl | rfl <;> norm_num
  have hMiss : calculateMiss mE =
      .ok (min (1 - (1 - pCR.2 * pMC.2) * (1 - pIR.2 * pMI.2) * (1 - pAR.2 * pMA.2))
        0.915) := by
    unfold calculateMiss
    rw [hokCR]
    simp only [Except.bind, bind]
    rw [hokMC]
    simp only [Except.bind, bind]
    rw [hokIR]
    simp only [Except.bind, bind]
    rw [hokMI]
    simp only [Except.bind, bind]
    rw [hokAR]
    simp only [Except.bind, bind]
    rw [hokMA]
    simp only [Except.bind, bind]
    rfl
  have hMexp : calculateModifiedExploitability mE =
      .ok (8.22 * pMAV.2 * pMAC.2 * wPRq * pMUI.2) := by
    unfold calculateModifiedExploitability
    rw [hokMAV]
    simp only [Except.bind, bind]
    rw [hokMAC]
    simp only [Except.bind, bind]
    rw [hokMPR]
    simp only [Except.bind, bind]
    rw [hokMUI]
    simp only [Except.bind, bind]
    rfl
  have hMexp0 : 0 ≤ 8.22 * pMAV.2 * pMAC.2 * wPRq * pMUI.2 := by
    have h1 : (0 : ℚ) ≤ 8.22 := by norm_num
    exact mul_nonneg (mul_nonneg (mul_nonneg (mul_nonneg h1 hwMAV) hwMAC) hwMPR0) hwMUI
  have hvnn : ¬ vr.versionStr = none := by
    rcases hvers with hv | hv <;> rw [hv] <;> simp
  unfold calculateEnvironmentalResult
  rw [h]
  simp only [Except.bind, bind]
  rw [hpop]
  simp only [Except.bind, bind]
  rw [hMiss]
  simp only [Except.bind, bind]
  rw [if_neg hvnn]
  simp only [Except.bind, bind, pure, Except.pure]
  rw [hMexp]
  simp only [Except.bind, bind]
  set miss := min (1 - (1 - pCR.2 * pMC.2) * (1 - pIR.2 * pMI.2) * (1 - pAR.2 * pMA.2))
    0.915 with hmiss
  set mex := 8.22 * pMAV.2 * pMAC.2 * wPRq * pMUI.2 with hmex
  set impact := calculateModifiedImpact mE miss vr.versionStr with himpact
  by_cases hi : impact ≤ 0
  · rw [if_pos hi]
    try simp only [Except.bind, bind, pure, Except.pure]
    try dsimp only
    refine ⟨_, rfl, ?_⟩
    dsimp only
    exact ⟨le_refl 0, by norm_num, 0, by norm_num, by norm_num⟩
  · rw [if_neg hi]
    try simp only [Except.bind, bind]
    try dsimp only
    rw [hokE]
    try simp only [Except.bind, bind]
    try dsimp only
    rw [hokRL]
    try simp only [Except.bind, bind]
    try dsimp only
    rw [hokRC]
    try simp only [Except.bind, bind, pure, Except.pure]
    try dsimp only
    have hi0 : 0 < impact := lt_of_not_le hi
    have hsum : 0 ≤ impact + mex := by linarith
    have hinner : ∀ x : ℚ, 0 ≤ x → x ≤ 10 →
        0 ≤ roundUp x * pE.2 * pRL.2 * pRC.2 ∧ roundUp x * pE.2 * pRL.2 * pRC.2 ≤ 10 := by
      intro x hx0 hx10
      obtain ⟨hr0, hr10⟩ := roundUp_nonneg_le_ten x hx0 hx10
      constructor
      · exact mul_nonneg (mul_nonneg (mul_nonneg hr0 hwE.1) hwRL.1) hwRC.1
      · calc roundUp x * pE.2 * pRL.2 * pRC.2
            ≤ roundUp x * pE.2 * pRL.2 :=
              mul_le_of_le_one_right
                (mul_nonneg (mul_nonneg hr0 hwE.1) hwRL.1) hwRC.2
          _ ≤ roundUp x * pE.2 :=
              mul_le_of_le_one_right (mul_nonneg hr0 hwE.1) hwRL.2
          _ ≤ roundUp x := mul_le_of_le_one_right hr0 hwE.2
          _ ≤ 10 := hr10
    by_cases hms : mapGet? mE "MS" = some "U"
    · rw [if_pos hms]
      refine ⟨_, rfl, ?_⟩
      dsimp only
      have harg0 : 0 ≤ min (impact + mex) 10 := le_min hsum (by norm_num)
      have harg10 : min (impact + mex) 10 ≤ 10 := min_le_right _ _
      obtain ⟨hp0, hp10⟩ := hinner _ harg0 harg10
      obtain ⟨n, hn, he⟩ := roundUp_mem _ hp0 hp10
      obtain ⟨h0, h10⟩ := roundUp_nonneg_le_ten _ hp0 hp10
      exact ⟨h0, h10, n, hn, he⟩
    · rw [if_neg hms]
      refine ⟨_, rfl, ?_⟩
      dsimp only
      have hsum' : 0 ≤ 1.08 * (impact + mex) := by linarith
      have harg0 : 0 ≤ min (1.08 * (impact + mex)) 10 := le_min hsum' (by norm_num)
      have harg10 : min (1.08 * (impact + mex)) 10 ≤ 10 := min_le_right _ _
      obtain ⟨hp0, hp10⟩ := hinner _ harg0 harg10
      obtain ⟨n, hn, he⟩ := roundUp_mem _ hp0 hp10
      obtain ⟨h0, h10⟩ := roundUp_nonneg_le_ten _ hp0 hp10
      exact ⟨h0, h10, n, hn, he⟩

/-! ## Weight lookups after environmental resolution -/

/-- After resolution, every Modified metric that feeds a numeric lookup
(`MAV`, `MAC`, `MPR`, `MUI`, `MC`, `MI`, `MA`) looks up successfully: its
resolved value is in its weight table (or, for `MPR`, in the scope-dependent
piecewise function's domain). -/
theorem modResolved_lookups_ok {m m' : MetricsMap}
    (hleg : ∀ k w, mapGet? m k = some w → w ∈ allKnownMetricsValues k)
    (hMAV : ModResolved m m' "MAV" "AV") (hMAC : ModResolved m m' "MAC" "AC")
    (hMPR : ModResolved m m' "MPR" "PR") (hMUI : ModResolved m m' "MUI" "UI")
    (hMS : ModResolved m m' "MS" "S") (hMC : ModResolved m m' "MC" "C")
    (hMI : ModResolved m m' "MI" "I") (hMA : ModResolved m m' "MA" "A") :
    (∃ q, getMetricNumericValue "MAV" m' = .ok q) ∧
    (∃ q, getMetricNumericValue "MAC" m' = .ok q) ∧
    (∃ q, getMetricNumericValue "MPR" m' = .ok q) ∧
    (∃ q, getMetricNumericValue "MUI" m' = .ok q) ∧
    (∃ q, getMetricNumericValue "MC" m' = .ok q) ∧
    (∃ q, getMetricNumericValue "MI" m' = .ok q) ∧
    (∃ q, getMetricNumericValue "MA" m' = .ok q) := by
  obtain ⟨wMAV, hgMAV, hxMAV, hoMAV⟩ := hMAV.origin
  obtain ⟨wMAC, hgMAC, hxMAC, hoMAC⟩ := hMAC.origin
  obtain ⟨wMPR, hgMPR, hxMPR, hoMPR⟩ := hMPR.origin
  obtain ⟨wMUI, hgMUI, hxMUI, hoMUI⟩ := hMUI.origin
  obtain ⟨wMS, hgMS, hxMS, hoMS⟩ := hMS.origin
  obtain ⟨wMC, hgMC, hxMC, hoMC⟩ := hMC.origin
  obtain ⟨wMI, hgMI, hxMI, hoMI⟩ := hMI.origin
  obtain ⟨wMA, hgMA, hxMA, hoMA⟩ := hMA.origin
  have hMAVl : wMAV = "N" ∨ wMAV = "A" ∨ wMAV = "L" ∨ wMAV = "P" := by
    rcases hoMAV with ho | ho
    · have hw := hleg _ _ ho
      rw [show allKnownMetricsValues "MAV" = ["X", "N", "A", "L", "P"] from by
        with_unfolding_all rfl] at hw
      rcases show wMAV = "X" ∨ wMAV = "N" ∨ wMAV = "A" ∨ wMAV = "L" ∨ wMAV = "P" by
        simpa using hw with rfl | hr
      · exact absurd rfl hxMAV
      · exact hr
    · have hw := hleg _ _ ho
      rw [show allKnownMetricsValues "AV" = ["N", "A", "L", "P"] from by
        with_unfolding_all rfl] at hw
      simpa using hw
  have hMACl : wMAC = "L" ∨ wMAC = "H" := by
    rcases hoMAC with ho | ho
    · have hw := hleg _ _ ho
      rw [show allKnownMetricsValues "MAC" = ["X", "L", "H"] from by
        with_unfolding_all rfl] at hw
      rcases show wMAC = "X" ∨ wMAC = "L" ∨ wMAC = "H" by simpa using hw with rfl | hr
      · exact absurd rfl hxMAC
      · exact hr
    · have hw := hleg _ _ ho
      rw [show allKnownMetricsValues "AC" = ["L", "H"] from by
        with_unfolding_all rfl] at hw
      simpa using hw
  have hMPRl : wMPR = "N" ∨ wMPR = "L" ∨ wMPR = "H" := by
    rcases hoMPR with ho | ho
    · have hw := hleg _ _ ho
      rw [show allKnownMetricsValues "MPR" = ["X", "N", "L", "H"] from by
        with_unfolding_all rfl] at hw
      rcases show wMPR = "X" ∨ wMPR = "N" ∨ wMPR = "L" ∨ wMPR = "H" by
        simpa using hw with rfl | hr
      · exact absurd rfl hxMPR
      · exact hr
    · have hw := hleg _ _ ho
      rw [show allKnownMetricsValues "PR" = ["N", "L", "H"] from by
        with_unfolding_all rfl] at hw
      simpa using hw
  have hMUIl : wMUI = "N" ∨ wMUI = "R" := by
    rcases hoMUI with ho | ho
    · have hw := hleg _ _ ho
      rw [show allKnownMetricsValues "MUI" = ["X", "N", "R"] from by
        with_unfolding_all rfl] at hw
      rcases show wMUI = "X" ∨ wMUI = "N" ∨ wMUI = "R" by simpa using hw with rfl | hr
      · exact absurd rfl hxMUI
      · exact hr
    · have hw := hleg _ _ ho
      rw [show allKnownMetricsValues "UI" = ["N", "R"] from by
        with_unfolding_all rfl] at hw
      simpa using hw
  have hMSl : wMS = "U" ∨ wMS = "C" := by
    rcases hoMS with ho | ho
    · have hw := hleg _ _ ho
      rw [show allKnownMetricsValues "MS" = ["X", "U", "C"] from by
        with_unfolding_all rfl] at hw
      rcases show wMS = "X" ∨ wMS = "U" ∨ wMS = "C" by simpa using hw with rfl | hr
      · exact absurd rfl hxMS
      · exact hr
    · have hw := hleg _ _ ho
      rw [show allKnownMetricsValues "S" = ["U", "C"] from by
        with_unfolding_all rfl] at hw
      simpa using hw
  have hMCl : wMC = "N" ∨ wMC = "L" ∨ wMC = "H" := by
    rcases hoMC with ho | ho
    · have hw := hleg _ _ ho
      rw [show allKnownMetricsValues "MC" = ["X", "N", "L", "H"] from by
        with_unfolding_all rfl] at hw
      rcases show wMC = "X" ∨ wMC = "N" ∨ wMC = "L" ∨ wMC = "H" by
        simpa using hw with rfl | hr
      · exact absurd rfl hxMC
      · exact hr
    · have hw := hleg _ _ ho
      rw [show allKnownMetricsValues "C" = ["N", "L", "H"] from by
        with_unfolding_all rfl] at hw
      simpa using hw
  have hMIl : wMI = "N" ∨ wMI = "L" ∨ wMI = "H" := by
    rcases hoMI with ho | ho
    · have hw := hleg _ _ ho
      rw [show allKnownMetricsValues "MI" = ["X", "N", "L", "H"] from by
        with_unfolding_all rfl] at hw
      rcases show wMI = "X" ∨ wMI = "N" ∨ wMI = "L" ∨ wMI = "H" by
        simpa using hw with rfl | hr
      · exact absurd rfl hxMI
      · exact hr
    · have hw := hleg _ _ ho
      rw [show allKnownMetricsValues "I" = ["N", "L", "H"] from by
        with_unfolding_all rfl] at hw
      simpa using hw
  have hMAl : wMA = "N" ∨ wMA = "L" ∨ wMA = "H" := by
    rcases hoMA with ho | ho
    · have hw := hleg _ _ ho
      rw [show allKnownMetricsValues "MA" = ["X", "N", "L", "H"] from by
        with_unfolding_all rfl] at hw
      rcases show wMA = "X" ∨ wMA = "N" ∨ wMA = "L" ∨ wMA = "H" by
        simpa using hw with rfl | hr
      · exact absurd rfl hxMA
      · exact hr
    · have hw := hleg _ _ ho
      rw [show allKnownMetricsValues "A" = ["N", "L", "H"] from by
        with_unfolding_all rfl] at hw
      simpa using hw
  obtain ⟨pMAV, -, hokMAV⟩ := getNum_table_ok (by decide) (by decide)
    (show combinedScoreTable "MAV" =
      some [("N", 0.85), ("A", 0.62), ("L", 0.55), ("P", 0.2)] by with_unfolding_all rfl)
    hgMAV (by rcases hMAVl with rfl | rfl | rfl | rfl <;> decide)
  obtain ⟨pMAC, -, hokMAC⟩ := getNum_table_ok (by decide) (by decide)
    (show combinedScoreTable "MAC" = some [("L", 0.77), ("H", 0.44)]
      by with_unfolding_all rfl)
    hgMAC (by rcases hMACl with rfl | rfl <;> decide)
  obtain ⟨wq, hokMPR, -, -⟩ := getNum_MPR_ok hgMPR hgMS hMPRl hMSl
  obtain ⟨pMUI, -, hokMUI⟩ := getNum_table_ok (by decide) (by decide)
    (show combinedScoreTable "MUI" = some [("N", 0.85), ("R", 0.62)]
      by with_unfolding_all rfl)
    hgMUI (by rcases hMUIl with rfl | rfl <;> decide)
  obtain ⟨pMC, -, hokMC⟩ := getNum_table_ok (by decide) (by decide)
    (show combinedScoreTable "MC" = some [("N", 0), ("L", 0.22), ("H", 0.56)]
      by with_unfolding_all rfl)
    hgMC (by rcases hMCl with rfl | rfl | rfl <;> decide)
  obtain ⟨pMI, -, hokMI⟩ := getNum_table_ok (by decide) (by decide)
    (show combinedScoreTable "MI" = some [("N", 0), ("L", 0.22), ("H", 0.56)]
      by with_unfolding_all rfl)
    hgMI (by rcases hMIl with rfl | rfl | rfl <;> decide)
  obtain ⟨pMA, -, hokMA⟩ := getNum_table_ok (by decide) (by decide)
    (show combinedScoreTable "MA" = some [("N", 0), ("L", 0.22), ("H", 0.56)]
      by with_unfolding_all rfl)
    hgMA (by rcases hMAl with rfl | rfl | rfl <;> decide)
  exact ⟨⟨_, hokMAV⟩, ⟨_, hokMAC⟩, ⟨_, hokMPR⟩, ⟨_, hokMUI⟩,
    ⟨_, hokMC⟩, ⟨_, hokMI⟩, ⟨_, hokMA⟩⟩

/-! ## Claim C10: environmental default population on validated maps -/

/-- **C10**: on any validated metrics map whose `CR`, `IR`, `AR` are present
with non-`X` values, `populateEnvironmentalMetricDefaults` succeeds; afterwards
every Modified environmental metric holds a concrete non-`X` value — its own
validated value if one other than `X` was supplied, otherwise the value of its
base counterpart (`ModResolved`) — and every subsequent numeric weight lookup
for a Modified metric succeeds. -/
theorem envDefaults_on_validated_map (s : String) (vr : ValidationResult)
    (h : validate s = .ok vr)
    (hreq : ∀ r, r = "AR" ∨ r = "CR" ∨ r = "IR" →
      ∃ v, mapGet? vr.metricsMap r = some v ∧ v ≠ "X") :
    ∃ m', populateEnvironmentalMetricDefaults vr.metricsMap = .ok m' ∧
      ModResolved vr.metricsMap m' "MAV" "AV" ∧ ModResolved vr.metricsMap m' "MAC" "AC" ∧
      ModResolved vr.metricsMap m' "MPR" "PR" ∧ ModResolved vr.metricsMap m' "MUI" "UI" ∧
      ModResolved vr.metricsMap m' "MS" "S" ∧ ModResolved vr.metricsMap m' "MC" "C" ∧
      ModResolved vr.metricsMap m' "MI" "I" ∧ ModResolved vr.metricsMap m' "MA" "A" ∧
      (∃ q, getMetricNumericValue "MAV" m' = .ok q) ∧
      (∃ q, getMetricNumericValue "MAC" m' = .ok q) ∧
      (∃ q, getMetricNumericValue "MPR" m' = .ok q) ∧
      (∃ q, getMetricNumericValue "MUI" m' = .ok q) ∧
      (∃ q, getMetricNumericValue "MC" m' = .ok q) ∧
      (∃ q, getMetricNumericValue "MI" m' = .ok q) ∧
      (∃ q, getMetricNumericValue "MA" m' = .ok q) := by
  obtain ⟨mE, hpop, -, hMAV, hMAC, hMPR, hMUI, hMS, hMC, hMI, hMA⟩ :=
    popEnv_spec hreq (validated_base_nonX h)
  have hvm := validate_ok_validatedMap h
  have hlook := modResolved_lookups_ok (fun k w hw => (hvm.2 k w hw).2)
    hMAV hMAC hMPR hMUI hMS hMC hMI hMA
  exact ⟨mE, hpop, hMAV, hMAC, hMPR, hMUI, hMS, hMC, hMI, hMA,
    hlook.1, hlook.2.1, hlook.2.2.1, hlook.2.2.2.1, hlook.2.2.2.2.1,
    hlook.2.2.2.2.2.1, hlook.2.2.2.2.2.2⟩

/-- Witness for C10 at a concrete vector carrying `CR:H/IR:M/AR:L` and no
Modified metrics. -/
theorem envDefaults_on_validated_map_witness :
    ∃ m', populateEnvironmentalMetricDefaults
        [("AV", "N"), ("AC", "L"), ("PR", "N"), ("UI", "N"), ("S", "U"),
         ("C", "H"), ("I", "H"), ("A", "H"), ("CR", "H"), ("IR", "M"), ("AR", "L")] =
        .ok m' ∧
      ModResolved [("AV", "N"), ("AC", "L"), ("PR", "N"), ("UI", "N"), ("S", "U"),
         ("C", "H"), ("I", "H"), ("A", "H"), ("CR", "H"), ("IR", "M"), ("AR", "L")]
        m' "MAV" "AV" ∧
      ModResolved [("AV", "N"), ("AC", "L"), ("PR", "N"), ("UI", "N"), ("S", "U"),
         ("C", "H"), ("I", "H"), ("A", "H"), ("CR", "H"), ("IR", "M"), ("AR", "L")]
        m' "MAC" "AC" ∧
      ModResolved [("AV", "N"), ("AC", "L"), ("PR", "N"), ("UI", "N"), ("S", "U"),
         ("C", "H"), ("I", "H"), ("A", "H"), ("CR", "H"), ("IR", "M"), ("AR", "L")]
        m' "MPR" "PR" ∧
      ModResolved [("AV", "N"), ("AC", "L"), ("PR", "N"), ("UI", "N"), ("S", "U"),
         ("C", "H"), ("I", "H"), ("A", "H"), ("CR", "H"), ("IR", "M"), ("AR", "L")]
        m' "MUI" "UI" ∧
      ModResolved [("AV", "N"), ("AC", "L"), ("PR", "N"), ("UI", "N"), ("S", "U"),
         ("C", "H"), ("I", "H"), ("A", "H"), ("CR", "H"), ("IR", "M"), ("AR", "L")]
        m' "MS" "S" ∧
      ModResolved [("AV", "N"), ("AC", "L"), ("PR", "N"), ("UI", "N"), ("S", "U"),
         ("C", "H"), ("I", "H"), ("A", "H"), ("CR", "H"), ("IR", "M"), ("AR", "L")]
        m' "MC" "C" ∧
      ModResolved [("AV", "N"), ("AC", "L"), ("PR", "N"), ("UI", "N"), ("S", "U"),
         ("C", "H"), ("I", "H"), ("A", "H"), ("CR", "H"), ("IR", "M"), ("AR", "L")]
        m' "MI" "I" ∧
      ModResolved [("AV", "N"), ("AC", "L"), ("PR", "N"), ("UI", "N"), ("S", "U"),
         ("C", "H"), ("I", "H"), ("A", "H"), ("CR", "H"), ("IR", "M"), ("AR", "L")]
        m' "MA" "A" ∧
      (∃ q, getMetricNumericValue "MAV" m' = .ok q) ∧
      (∃ q, getMetricNumericValue "MAC" m' = .ok q) ∧
      (∃ q, getMetricNumericValue "MPR" m' = .ok q) ∧
      (∃ q, getMetricNumericValue "MUI" m' = .ok q) ∧
      (∃ q, getMetricNumericValue "MC" m' = .ok q) ∧
      (∃ q, getMetricNumericValue "MI" m' = .ok q) ∧
      (∃ q, getMetricNumericValue "MA" m' = .ok q) :=
  envDefaults_on_validated_map
    "CVSS:3.1/AV:N/AC:L/PR:N/UI:N/S:U/C:H/I:H/A:H/CR:H/IR:M/AR:L"
    { metricsMap := [("AV", "N"), ("AC", "L"), ("PR", "N"), ("UI", "N"), ("S", "U"),
        ("C", "H"), ("I", "H"), ("A", "H"), ("CR", "H"), ("IR", "M"), ("AR", "L")]
      isTemporal := false
      isEnvironmental := true
      versionStr := some "3.1" }
    (by with_unfolding_all rfl)
    (by
      intro r hr
      rcases hr with rfl | rfl | rfl
      · exact ⟨"L", by with_unfolding_all rfl, by decide⟩
      · exact ⟨"H", by with_unfolding_all rfl, by decide⟩
      · exact ⟨"M", by with_unfolding_all rfl, by decide⟩)

/-! ## Claim C2: bounds and granularity of the three scores

As stated, the claim fails for `calculateEnvironmentalScore`: on most accepted
vectors (any without explicit non-`X` `CR`/`IR`/`AR`) the environmental path
throws `MissingModifiedMetric` (see C1).  Base and Temporal satisfy the claim
unconditionally; Environmental satisfies it whenever `CR`, `IR`, `AR` are
present with non-`X` values. -/

/-- **C2 counterexample**: an accepted vector on which
`calculateEnvironmentalScore` raises instead of returning a score. -/
theorem envScore_error_on_accepted_vector :
    validate "CVSS:3.0/AV:A/AC:H/PR:H/UI:R/S:U/C:N/I:N/A:L" =
      .ok { metricsMap := [("AV", "A"), ("AC", "H"), ("PR", "H"), ("UI", "R"),
              ("S", "U"), ("C", "N"), ("I", "N"), ("A", "L")]
            isTemporal := false
            isEnvironmental := false
            versionStr := some "3.0" } ∧
    calculateEnvironmentalScore "CVSS:3.0/AV:A/AC:H/PR:H/UI:R/S:U/C:N/I:N/A:L" =
      .error (.missingModifiedMetric "AR") :=
  ⟨by with_unfolding_all rfl, by with_unfolding_all rfl⟩

/-- **C2 (amended)**: for every vector accepted by `validate`,
`calculateBaseScore` and `calculateTemporalScore` return a score in `[0, 10]`
that is an integer multiple of `0.1`; `calculateEnvironmentalScore` does so
whenever `CR`, `IR` and `AR` are present with non-`X` values (otherwise it
raises `MissingModifiedMetric`, see the counterexample and C1). -/
theorem scores_bounded (s : String) (vr : ValidationResult)
    (h : validate s = .ok vr) :
    (∃ b, calculateBaseScore s = .ok b ∧ 0 ≤ b ∧ b ≤ 10 ∧
      ∃ n : ℕ, n ≤ 100 ∧ b = (n : ℚ) / 10) ∧
    (∃ t, calculateTemporalScore s = .ok t ∧ 0 ≤ t ∧ t ≤ 10 ∧
      ∃ n : ℕ, n ≤ 100 ∧ t = (n : ℚ) / 10) ∧
    ((∀ r, r = "AR" ∨ r = "CR" ∨ r = "IR" →
        ∃ v, mapGet? vr.metricsMap r = some v ∧ v ≠ "X") →
      ∃ e, calculateEnvironmentalScore s = .ok e ∧ 0 ≤ e ∧ e ≤ 10 ∧
        ∃ n : ℕ, n ≤ 100 ∧ e = (n : ℚ) / 10) := by
  refine ⟨?_, ?_, ?_⟩
  · obtain ⟨r, hr, h0, h10, n, hn, he⟩ := baseResult_spec h
    refine ⟨r.score, ?_, h0, h10, n, hn, he⟩
    unfold calculateBaseScore
    rw [hr]
    rfl
  · obtain ⟨r, br, hr, hbr, h0, hle, n, hn, he⟩ := temporalResult_spec h
    have h10 : r.score ≤ 10 := by
      rw [he]
      rw [div_le_iff₀ (by norm_num : (0 : ℚ) < 10)]
      have : (n : ℚ) ≤ 100 := by exact_mod_cast hn
      linarith
    refine ⟨r.score, ?_, h0, h10, n, hn, he⟩
    unfold calculateTemporalScore
    rw [hr]
    rfl
  · intro hreq
    obtain ⟨r, hr, h0, h10, n, hn, he⟩ := envResult_spec h hreq
    refine ⟨r.score, ?_, h0, h10, n, hn, he⟩
    unfold calculateEnvironmentalScore
    rw [hr]
    rfl

/-- Witness for the amended C2, at a plain Base vector (Base and Temporal
parts) and at a vector carrying non-`X` `CR`/`IR`/`AR` (Environmental part). -/
theorem scores_bounded_witness :
    (∃ b, calculateBaseScore "CVSS:3.1/AV:N/AC:L/PR:N/UI:N/S:U/C:H/I:H/A:H" = .ok b ∧
      0 ≤ b ∧ b ≤ 10 ∧ ∃ n : ℕ, n ≤ 100 ∧ b = (n : ℚ) / 10) ∧
    (∃ t, calculateTemporalScore "CVSS:3.1/AV:N/AC:L/PR:N/UI:N/S:U/C:H/I:H/A:H" = .ok t ∧
      0 ≤ t ∧ t ≤ 10 ∧ ∃ n : ℕ, n ≤ 100 ∧ t = (n : ℚ) / 10) ∧
    (∃ e, calculateEnvironmentalScore
        "CVSS:3.1/AV:N/AC:L/PR:N/UI:N/S:U/C:H/I:H/A:H/CR:H/IR:M/AR:L" = .ok e ∧
      0 ≤ e ∧ e ≤ 10 ∧ ∃ n : ℕ, n ≤ 100 ∧ e = (n : ℚ) / 10) := by
  have h1 := scores_bounded "CVSS:3.1/AV:N/AC:L/PR:N/UI:N/S:U/C:H/I:H/A:H"
    { metricsMap := [("AV", "N"), ("AC", "L"), ("PR", "N"), ("UI", "N"), ("S", "U"),
        ("C", "H"), ("I", "H"), ("A", "H")]
      isTemporal := false
      isEnvironmental := false
      versionStr := some "3.1" }
    (by with_unfolding_all rfl)
  have h2 := scores_bounded "CVSS:3.1/AV:N/AC:L/PR:N/UI:N/S:U/C:H/I:H/A:H/CR:H/IR:M/AR:L"
    { metricsMap := [("AV", "N"), ("AC", "L"), ("PR", "N"), ("UI", "N"), ("S", "U"),
        ("C", "H"), ("I", "H"), ("A", "H"), ("CR", "H"), ("IR", "M"), ("AR", "L")]
      isTemporal := false
      isEnvironmental := true
      versionStr := some "3.1" }
    (by with_unfolding_all rfl)
  refine ⟨h1.1, h1.2.1, h2.2.2 ?_⟩
  intro r hr
  rcases hr with rfl | rfl | rfl
  · exact ⟨"L", by with_unfolding_all rfl, by decide⟩
  · exact ⟨"H", by with_unfolding_all rfl, by decide⟩
  · exact ⟨"M", by with_unfolding_all rfl, by decide⟩

/-! ## Claim C6: Temporal never exceeds Base -/

/-- **C6**: for every vector accepted by `validate`, the Temporal score is at
most the Base score (all temporal weights lie in `[0, 1]` and `roundUp` is
monotone with the Base score as a fixed point). -/
theorem temporalScore_le_baseScore (s : String) (vr : ValidationResult)
    (h : validate s = .ok vr) :
    ∃ t b : ℚ, calculateTemporalScore s = .ok t ∧ calculateBaseScore s = .ok b ∧
      t ≤ b := by
  obtain ⟨r, br, hr, hbr, -, hle, -⟩ := temporalResult_spec h
  refine ⟨r.score, br.score, ?_, ?_, hle⟩
  · unfold calculateTemporalScore
    rw [hr]
    rfl
  · unfold calculateBaseScore
    rw [hbr]
    rfl

/-- Witness for C6 at the spec's own example: the 9.8 reference vector extended
with `/E:U/RL:O/RC:C`. -/
theorem temporalScore_le_baseScore_witness :
    ∃ t b : ℚ,
      calculateTemporalScore "CVSS:3.1/AV:N/AC:L/PR:N/UI:N/S:U/C:H/I:H/A:H/E:U/RL:O/RC:C"
        = .ok t ∧
      calculateBaseScore "CVSS:3.1/AV:N/AC:L/PR:N/UI:N/S:U/C:H/I:H/A:H/E:U/RL:O/RC:C"
        = .ok b ∧ t ≤ b :=
  temporalScore_le_baseScore "CVSS:3.1/AV:N/AC:L/PR:N/UI:N/S:U/C:H/I:H/A:H/E:U/RL:O/RC:C"
    { metricsMap := [("AV", "N"), ("AC", "L"), ("PR", "N"), ("UI", "N"), ("S", "U"),
        ("C", "H"), ("I", "H"), ("A", "H"), ("E", "U"), ("RL", "O"), ("RC", "C")]
      isTemporal := true
      isEnvironmental := false
      versionStr := some "3.1" }
    (by with_unfolding_all rfl)

/-! ## Claim C5: the version string's only influence -/

theorem versionRegexExec_30 (b : String) :
    versionRegexExec ("CVSS:3.0/" ++ b) =
      if b.data.any isLineTerminator = true then none
      else some ("3.0", '/' :: b.data) := by
  with_unfolding_all rfl

theorem versionRegexExec_31 (b : String) :
    versionRegexExec ("CVSS:3.1/" ++ b) =
      if b.data.any isLineTerminator = true then none
      else some ("3.1", '/' :: b.data) := by
  with_unfolding_all rfl

/-! ## CVSS 3.0 vs 3.1: the version only gates the Modified Impact constants -/

theorem strStartsWith_cvss30 (b : String) :
    strStartsWith ("CVSS:3.0/" ++ b) "CVSS:" = true := by
  with_unfolding_all rfl

theorem strStartsWith_cvss31 (b : String) :
    strStartsWith ("CVSS:3.1/" ++ b) "CVSS:" = true := by
  with_unfolding_all rfl

theorem parseVersion_30 (b : String) :
    parseVersion ("CVSS:3.0/" ++ b) =
      if b.data.any isLineTerminator = true then none else some "3.0" := by
  simp only [parseVersion, versionRegexExec_30]
  split <;> rfl

theorem parseVersion_31 (b : String) :
    parseVersion ("CVSS:3.1/" ++ b) =
      if b.data.any isLineTerminator = true then none else some "3.1" := by
  simp only [parseVersion, versionRegexExec_31]
  split <;> rfl

theorem parseVector_30 (b : String) :
    parseVector ("CVSS:3.0/" ++ b) =
      if b.data.any isLineTerminator = true then none
      else some ⟨jsTrimList b.data⟩ := by
  simp only [parseVector, versionRegexExec_30]
  split <;> rfl

theorem parseVector_31 (b : String) :
    parseVector ("CVSS:3.1/" ++ b) =
      if b.data.any isLineTerminator = true then none
      else some ⟨jsTrimList b.data⟩ := by
  simp only [parseVector, versionRegexExec_31]
  split <;> rfl

theorem parseMetricsAsMap_30_31 (b : String) :
    parseMetricsAsMap ("CVSS:3.0/" ++ b) = parseMetricsAsMap ("CVSS:3.1/" ++ b) := by
  unfold parseMetricsAsMap
  rw [parseVector_30, parseVector_31]

/-- `validate` on a `CVSS:3.0/` string agrees with `validate` on the
corresponding `CVSS:3.1/` string except for the recorded version string. -/
theorem validate_30_eq (b : String) :
    validate ("CVSS:3.0/" ++ b) =
      (validate ("CVSS:3.1/" ++ b)).map
        (fun vr => { vr with versionStr := some "3.0" }) := by
  unfold validate
  rw [strStartsWith_cvss30, strStartsWith_cvss31]
  simp only [if_neg (not_not_intro rfl)]
  rw [parseVersion_30, parseVersion_31, parseVector_30, parseVector_31,
    parseMetricsAsMap_30_31]
  cases hLT : b.data.any isLineTerminator
  · simp only [Bool.false_eq_true, if_false]
    rw [show validateVersion (some "3.0") = .ok () from by with_unfolding_all rfl,
      show validateVersion (some "3.1") = .ok () from by with_unfolding_all rfl]
    dsimp only
    by_cases hv : (⟨jsTrimList b.data⟩ : String) = ""
    · rw [if_pos hv, if_pos hv]
      rfl
    · rw [if_neg hv, if_neg hv]
      cases validateVector ⟨jsTrimList b.data⟩ with
      | error e => rfl
      | ok u =>
        dsimp only
        cases parseMetricsAsMap ("CVSS:3.1/" ++ b) with
        | error e => rfl
        | ok map =>
          dsimp only
          cases checkMandatoryMetrics map with
          | error e => rfl
          | ok u2 =>
            dsimp only
            cases checkUnknownMetrics map allKnownMetrics with
            | error e => rfl
            | ok u3 =>
              dsimp only
              cases checkMetricsValues map allKnownMetrics with
              | error e => rfl
              | ok u4 => rfl
  · rfl

theorem calculateBaseResult_30_31 (b : String) :
    calculateBaseResult ("CVSS:3.0/" ++ b) = calculateBaseResult ("CVSS:3.1/" ++ b) := by
  unfold calculateBaseResult
  rw [validate_30_eq b]
  cases validate ("CVSS:3.1/" ++ b) with
  | error e => rfl
  | ok vr => rfl

theorem calculateTemporalResult_30_31 (b : String) :
    calculateTemporalResult ("CVSS:3.0/" ++ b) = calculateTemporalResult ("CVSS:3.1/" ++ b) := by
  unfold calculateTemporalResult
  rw [validate_30_eq b, calculateBaseResult_30_31 b]
  cases validate ("CVSS:3.1/" ++ b) with
  | error e => rfl
  | ok vr => rfl

/-- C5: with Modified Scope Changed, `calculateModifiedImpact` computes
`7.52·(MISS − 0.029) − 3.25·(MISS·k − 0.02)^p` with `(k,p) = (1,15)` when the
validated version string is `"3.0"` and `(0.9731,13)` when it is `"3.1"`; and
these constants are the only version-dependent numbers: for every vector body,
`calculateBaseScore` and `calculateTemporalScore` agree between the
`CVSS:3.0/` and `CVSS:3.1/` prefixes. -/
theorem modifiedImpact_version_gate :
    (∀ (m : MetricsMap) (miss : ℚ), mapGet? m "MS" = some "C" →
      calculateModifiedImpact m miss (some "3.0") =
          7.52 * (miss - 0.029) - 3.25 * (miss * 1 - 0.02) ^ (15 : ℕ) ∧
      calculateModifiedImpact m miss (some "3.1") =
          7.52 * (miss - 0.029) - 3.25 * (miss * 0.9731 - 0.02) ^ (13 : ℕ)) ∧
    (∀ b : String,
      calculateBaseScore ("CVSS:3.0/" ++ b) = calculateBaseScore ("CVSS:3.1/" ++ b) ∧
      calculateTemporalScore ("CVSS:3.0/" ++ b) = calculateTemporalScore ("CVSS:3.1/" ++ b)) := by
  refine ⟨fun m miss h => ⟨?_, ?_⟩, fun b => ⟨?_, ?_⟩⟩
  · unfold calculateModifiedImpact
    rw [h, if_neg (show ¬ ((some "C" : Option String) = some "U") from by decide)]
    simp only [reduceIte]
  · unfold calculateModifiedImpact
    rw [h, if_neg (show ¬ ((some "C" : Option String) = some "U") from by decide)]
    have h31 : ¬ ((some "3.1" : Option String) = some "3.0") := by decide
    rw [if_neg h31, if_neg h31]
  · unfold calculateBaseScore
    rw [calculateBaseResult_30_31]
  · unfold calculateTemporalScore
    rw [calculateTemporalResult_30_31]

theorem modifiedImpact_version_gate_witness :
    calculateModifiedImpact [("MS", "C")] (1/2) (some "3.0") =
        7.52 * ((1/2 : ℚ) - 0.029) - 3.25 * ((1/2 : ℚ) * 1 - 0.02) ^ (15 : ℕ) ∧
    calculateModifiedImpact [("MS", "C")] (1/2) (some "3.1") =
        7.52 * ((1/2 : ℚ) - 0.029) - 3.25 * ((1/2 : ℚ) * 0.9731 - 0.02) ^ (13 : ℕ) :=
  modifiedImpact_version_gate.1 [("MS", "C")] (1/2) (by with_unfolding_all rfl)

/-- C8: `validate` raises exactly the first failing check in the fixed order
missing prefix, unsupported version, malformed vector body, parser errors,
missing mandatory metric, unknown metric, invalid metric value — the error for
an input triggering several conditions is the earliest-listed one (`validate`
errors with `e` iff the spec-side ordered cascade `specFirstError` yields `e`);
and a `missingMandatoryMetric` error always names the first absent base metric.
-/
theorem validate_first_failing_check (s : String) (e : VError) :
    (validate s = .error e ↔ specFirstError s = some e) ∧
    (∀ (map : MetricsMap) (metric : String),
      checkMandatoryMetrics map = .error (.missingMandatoryMetric metric) →
      ∃ l₁ l₂, baseMetrics = l₁ ++ metric :: l₂ ∧
        (∀ y ∈ l₁, mapHas map y = true) ∧ mapHas map metric = false) := by
  constructor
  · unfold validate specFirstError
    cases hb : strStartsWith s "CVSS:"
    · rw [if_pos (by simp), if_pos rfl]
      simp only [Except.error.injEq, Option.some.injEq]
    · rw [if_neg (by simp), if_neg (by simp)]
      cases hv : parseVersion s with
      | none =>
        dsimp only [validateVersion]
        simp only [Except.error.injEq, Option.some.injEq]
      | some v =>
        unfold validateVersion
        dsimp only
        by_cases hver : v ≠ "3.0" ∧ v ≠ "3.1"
        · rw [if_pos hver, if_pos hver]
          dsimp only
          simp only [Except.error.injEq, Option.some.injEq]
        · rw [if_neg hver, if_neg hver]
          dsimp only
          cases hvec : parseVector s with
          | none => simp only [Except.error.injEq, Option.some.injEq]
          | some vec =>
            dsimp only
            by_cases hvE : vec = ""
            · rw [if_pos hvE, if_pos (Or.inl hvE)]
              simp only [Except.error.injEq, Option.some.injEq]
            · rw [if_neg hvE]
              unfold validateVector
              cases hcont : strContainsSub vec "//"
              · have hor : ¬ (vec = "" ∨ false = true) := by
                  rintro (h | h)
                  · exact hvE h
                  · cases h
                rw [if_neg hor, if_neg hor]
                dsimp only
                cases hm : parseMetricsAsMap s with
                | error e2 => simp only [Except.error.injEq, Option.some.injEq]
                | ok map =>
                  dsimp only
                  cases hcm : checkMandatoryMetrics map with
                  | error e2 =>
                    dsimp only [errOf]
                    simp only [Except.error.injEq, Option.some.injEq]
                  | ok u =>
                    dsimp only [errOf]
                    cases hcu : checkUnknownMetrics map allKnownMetrics with
                    | error e2 =>
                      dsimp only
                      simp only [Except.error.injEq, Option.some.injEq]
                    | ok u2 =>
                      dsimp only
                      cases hcv : checkMetricsValues map allKnownMetrics with
                      | error e2 =>
                        simp only [Except.error.injEq, Option.some.injEq]
                      | ok u3 => simp
              · have hor : vec = "" ∨ true = true := Or.inr rfl
                rw [if_pos hor, if_pos hor]
                dsimp only
                simp only [Except.error.injEq, Option.some.injEq]
  · intro map metric h
    unfold checkMandatoryMetrics at h
    rw [firstErr_eq_error_iff] at h
    obtain ⟨l₁, x, l₂, hsplit, hnone, hsome⟩ := h
    cases hmx : mapHas map x with
    | true =>
      rw [hmx] at hsome
      simp at hsome
    | false =>
      rw [hmx] at hsome
      simp only [Bool.false_eq_true, if_false, Option.some.injEq,
        VError.missingMandatoryMetric.injEq] at hsome
      subst hsome
      refine ⟨l₁, l₂, hsplit, fun y hy => ?_, hmx⟩
      have hfy := hnone y hy
      cases hmy : mapHas map y with
      | true => rfl
      | false =>
        rw [hmy] at hfy
        simp at hfy

theorem validate_first_failing_check_witness :
    specFirstError "CVSS:2.0/AV:N//" = some (.unsupportedVersion (some "2.0")) ∧
    (∃ l₁ l₂, baseMetrics = l₁ ++ "AC" :: l₂ ∧
      (∀ y ∈ l₁, mapHas [("AV", "N")] y = true) ∧
      mapHas ([("AV", "N")] : MetricsMap) "AC" = false) :=
  ⟨(validate_first_failing_check "CVSS:2.0/AV:N//"
        (.unsupportedVersion (some "2.0"))).1.mp (by with_unfolding_all rfl),
   (validate_first_failing_check "" .missingPrefix).2 [("AV", "N")] "AC"
      (by with_unfolding_all rfl)⟩

end Cvssify
